import Mathlib

/-!
# ViGEmBus, `sys/buspdo.c`: child device (PDO) creation and USB request dispatch

A shallow embedding of the functions of `buspdo.c`:

* `Bus_EvtChildListIdentificationDescriptionCompare`
* `Bus_CreatePdo`
* `Pdo_EvtDevicePrepareHardware`
* `Pdo_EvtIoInternalDeviceControl`

Machine integers (`ULONG`, `USHORT`, `UCHAR`, `NTSTATUS`) are natural numbers
holding the unsigned bit pattern.  Calls into the framework (WDF) and into the
per-family modules (`Xusb_*`, `Ds4_*`, `Xgip_*`, `UsbPdo_*`), whose code is not
part of this file, are parameters of the embedding: every result they may
return is quantified over.  Trace output (`TraceEvents`) is not modelled.
-/

namespace ViGEmBus

/-! ## Platform constants (Windows SDK headers) -/

/-- An `NTSTATUS` is a 32-bit value; it is kept as its unsigned bit pattern. -/
abbrev NTSTATUS := Nat

/-- Success code (`ntstatus.h`). -/
def STATUS_SUCCESS : NTSTATUS := 0x00000000
/-- The request was queued and will be completed later (`ntstatus.h`). -/
def STATUS_PENDING : NTSTATUS := 0x00000103
/-- Generic failure code (`ntstatus.h`). -/
def STATUS_UNSUCCESSFUL : NTSTATUS := 0xC0000001
/-- Invalid parameter failure code (`ntstatus.h`). -/
def STATUS_INVALID_PARAMETER : NTSTATUS := 0xC000000D

/-- The macro `NT_SUCCESS(s)` is `((NTSTATUS)(s)) >= 0` on the signed 32-bit
value, that is, bit 31 of the pattern is clear. -/
def NT_SUCCESS (s : NTSTATUS) : Bool := decide (s % 2 ^ 32 < 2 ^ 31)

/-- The USBD status code of a stalled endpoint (`usb.h`). -/
def USBD_STATUS_STALL_PID : Nat := 0xC0000004

/-- Port status bit: enabled (`usbioctl.h`). -/
def USBD_PORT_ENABLED : Nat := 0x00000001
/-- Port status bit: connected (`usbioctl.h`). -/
def USBD_PORT_CONNECTED : Nat := 0x00000002

/-- I/O control code `IOCTL_INTERNAL_USB_SUBMIT_URB` (`usbioctl.h`). -/
def IOCTL_INTERNAL_USB_SUBMIT_URB : Nat := 0x00220003
/-- I/O control code `IOCTL_INTERNAL_USB_RESET_PORT` (`usbioctl.h`). -/
def IOCTL_INTERNAL_USB_RESET_PORT : Nat := 0x00220007
/-- I/O control code `IOCTL_INTERNAL_USB_GET_PORT_STATUS` (`usbioctl.h`). -/
def IOCTL_INTERNAL_USB_GET_PORT_STATUS : Nat := 0x00220013
/-- I/O control code `IOCTL_INTERNAL_USB_SUBMIT_IDLE_NOTIFICATION` (`usbioctl.h`). -/
def IOCTL_INTERNAL_USB_SUBMIT_IDLE_NOTIFICATION : Nat := 0x00220027

/-- URB function code (`usb.h`). -/
def URB_FUNCTION_SELECT_CONFIGURATION : Nat := 0x0000
/-- URB function code (`usb.h`). -/
def URB_FUNCTION_SELECT_INTERFACE : Nat := 0x0001
/-- URB function code (`usb.h`). -/
def URB_FUNCTION_ABORT_PIPE : Nat := 0x0002
/-- URB function code (`usb.h`). -/
def URB_FUNCTION_CONTROL_TRANSFER : Nat := 0x0008
/-- URB function code (`usb.h`). -/
def URB_FUNCTION_BULK_OR_INTERRUPT_TRANSFER : Nat := 0x0009
/-- URB function code (`usb.h`). -/
def URB_FUNCTION_GET_DESCRIPTOR_FROM_DEVICE : Nat := 0x000B
/-- URB function code (`usb.h`). -/
def URB_FUNCTION_GET_STATUS_FROM_DEVICE : Nat := 0x0013
/-- URB function code (`usb.h`). -/
def URB_FUNCTION_CLASS_INTERFACE : Nat := 0x001B
/-- URB function code (`usb.h`). -/
def URB_FUNCTION_GET_DESCRIPTOR_FROM_INTERFACE : Nat := 0x0028
/-- URB function code (`usb.h`). -/
def URB_FUNCTION_CONTROL_TRANSFER_EX : Nat := 0x0032

/-- Descriptor type (`usbspec.h`). -/
def USB_DEVICE_DESCRIPTOR_TYPE : Nat := 0x01
/-- Descriptor type (`usbspec.h`). -/
def USB_CONFIGURATION_DESCRIPTOR_TYPE : Nat := 0x02
/-- Descriptor type (`usbspec.h`). -/
def USB_STRING_DESCRIPTOR_TYPE : Nat := 0x03
/-- Descriptor type (`usbspec.h`). -/
def USB_INTERFACE_DESCRIPTOR_TYPE : Nat := 0x04
/-- Descriptor type (`usbspec.h`). -/
def USB_ENDPOINT_DESCRIPTOR_TYPE : Nat := 0x05

/-! ## Data model -/

/-- Modelled from the spec: the enumeration `VIGEM_TARGET_TYPE` is declared in a
header that is not among the sources; the spec gives it as the target family
`enum{FamilyA, FamilyB, FamilyC}`.  The three named families are the cases
`buspdo.c` switches on (FamilyA is `Xbox360Wired`, FamilyB `DualShock4Wired`,
FamilyC `XboxOneWired`); `Unknown` stands for every other value the field can
hold, which the code sends to its `default:` branches. -/
inductive VIGEM_TARGET_TYPE where
  | Xbox360Wired
  | XboxOneWired
  | DualShock4Wired
  | Unknown
  deriving DecidableEq, Repr

/-- Modelled from the spec: the structure `PDO_IDENTIFICATION_DESCRIPTION` is
declared in `busenum.h`, which is not among the sources; the spec gives it as
the device identity record `{serialNumber: u32, targetFamily, vendorId: u16,
productId: u16, ownerProcessId: u32}`.  The fields carry the names `buspdo.c`
uses; the framework header is left out. -/
structure PDO_IDENTIFICATION_DESCRIPTION where
  SerialNo : Nat
  TargetType : VIGEM_TARGET_TYPE
  OwnerProcessId : Nat
  VendorId : Nat
  ProductId : Nat
  deriving DecidableEq, Repr

/-- Source: `Bus_EvtChildListIdentificationDescriptionCompare`.  The device list
argument is unreferenced. -/
def Bus_EvtChildListIdentificationDescriptionCompare
    (lhs rhs : PDO_IDENTIFICATION_DESCRIPTION) : Bool :=
  if lhs.SerialNo = rhs.SerialNo then true else false

/-! ## USB request dispatch: data -/

/-- The parts of a `URB` that `buspdo.c` reads or writes.  Memory behind a
pointer is a map from byte offset to byte. -/
structure URB where
  /-- Field `UrbHeader.Function`. -/
  Function : Nat
  /-- Field `UrbHeader.Status` (`UrbControlTransfer.Hdr.Status`). -/
  Status : Nat
  /-- Field `UrbControlTransfer.SetupPacket`, an array of 8 bytes. -/
  SetupPacket : Fin 8 → Nat
  /-- The memory `UrbControlTransfer.TransferBuffer` points to. -/
  TransferBuffer : Nat → Nat
  /-- Field `UrbControlDescriptorRequest.DescriptorType`. -/
  DescriptorType : Nat

/-- Modelled from the spec: the structure `PDO_DEVICE_DATA`, the common context
of a child device, is declared in `busenum.h`, which is not among the sources;
the spec gives it as the device runtime state (identity, bus callback, data
queue, notification queue).  The fields are the members `buspdo.c` uses; the
member `BusInterface` is the reporting channel, see `STAGE_REPORT`. -/
structure PDO_DEVICE_DATA where
  SerialNo : Nat
  TargetType : VIGEM_TARGET_TYPE
  OwnerProcessId : Nat
  VendorId : Nat
  ProductId : Nat
  /-- Requests held in the manual queue `PendingUsbInRequests`. -/
  PendingUsbInRequests : List Nat
  /-- Requests held in the manual queue `PendingNotificationRequests`. -/
  PendingNotificationRequests : List Nat

/-- A child device (`WDFDEVICE hDevice`) with the contexts attached to it. -/
structure DEVICE where
  /-- Result of `PdoGetData(hDevice)`. -/
  pdoData : PDO_DEVICE_DATA
  /-- The buffer of `XusbGetData(hDevice)->InterruptBlobStorage`, as returned
  by `WdfMemoryGetBuffer`; the dispatcher reads it for `Xbox360Wired` only. -/
  InterruptBlobStorage : Nat → Nat
  /-- The remaining family-specific context, which only the family modules
  read and write. -/
  FamilyContext : List Nat

/-- Modelled from the spec: the enumeration `VIGEM_PDO_STAGE` is declared in
`busenum.h`, which is not among the sources; the spec gives it as
`stage ∈ {Create, PrepareHardware, InitFinished}`.  The constructors carry the
names `buspdo.c` uses. -/
inductive VIGEM_PDO_STAGE where
  | ViGEmPdoCreate
  | ViGEmPdoPrepareHardware
  | ViGEmPdoInitFinished
  deriving DecidableEq, Repr

/-- Modelled from the spec: the macro `BUS_PDO_REPORT_STAGE_RESULT(interface,
stage, serial, status)` is declared in `busenum.h`, which is not among the
sources; the spec gives it as the fire-and-forget callback
`reportStage(stage, serialNumber, outcome)` to the parent bus.  One call is one
record. -/
structure STAGE_REPORT where
  Stage : VIGEM_PDO_STAGE
  SerialNo : Nat
  Status : NTSTATUS
  deriving DecidableEq, Repr

/-- What a `UsbPdo_*` routine does to the URB and to the device, with the
status it returns. -/
abbrev UsbPdoRoutine := URB → DEVICE → NTSTATUS × URB × DEVICE

/-- The routines of `usbpdo.c` that the dispatcher delegates to.  Their code is
not part of `buspdo.c`; each one is an arbitrary function here. -/
structure UsbPdo where
  /-- Also receives the request handle. -/
  BulkOrInterruptTransfer : Nat → UsbPdoRoutine
  SelectConfiguration : UsbPdoRoutine
  SelectInterface : UsbPdoRoutine
  GetDeviceDescriptorType : UsbPdoRoutine
  GetConfigurationDescriptorType : UsbPdoRoutine
  GetStringDescriptorType : UsbPdoRoutine
  AbortPipe : DEVICE → NTSTATUS × DEVICE
  ClassInterface : UsbPdoRoutine
  GetDescriptorFromInterface : UsbPdoRoutine

/-- The parts of the IRP the dispatcher uses.  `Parameters.Others.Argument1`
points to the URB for a submit-URB request and to the port status word for a
get-port-status request. -/
structure IRP where
  /-- Result of `URB_FROM_IRP(irp)`. -/
  Urb : URB
  /-- The word `*(unsigned long *)irpStack->Parameters.Others.Argument1`. -/
  PortStatus : Nat

/-- Everything `Pdo_EvtIoInternalDeviceControl` can have changed when it
returns, with the final value of its local variable `status`. -/
structure DISPATCH_STATE where
  status : NTSTATUS
  Urb : URB
  Device : DEVICE
  PortStatus : Nat
  /-- Calls of `BUS_PDO_REPORT_STAGE_RESULT` made by the dispatcher, in order. -/
  Reports : List STAGE_REPORT
  /-- Calls of `WdfRequestComplete(Request, s)` made by the dispatcher, in
  order: the list of the codes `s`. -/
  Completed : List NTSTATUS

/-- The call `RtlCopyMemory(dst, src, len)` on regions that do not overlap: the
destination memory afterwards. -/
def RtlCopyMemory (dst src : Nat → Nat) (len : Nat) : Nat → Nat :=
  fun i => if i < len then src i else dst i

/-- Runs a delegated routine on the state and stores its result in `status`. -/
def DISPATCH_STATE.call (s : DISPATCH_STATE) (f : UsbPdoRoutine) : DISPATCH_STATE :=
  let r := f s.Urb s.Device
  { s with status := r.1, Urb := r.2.1, Device := r.2.2 }

/-! ## USB request dispatch: code -/

/-- Source: `Pdo_EvtIoInternalDeviceControl`, the inner
`switch (urb->UrbHeader.Function)` of the case `IOCTL_INTERNAL_USB_SUBMIT_URB`.
`XUSB_BLOB_07_OFFSET` is a constant of `Xusb.h`, taken as a parameter. -/
def submitUrb (XUSB_BLOB_07_OFFSET : Nat) (usbPdo : UsbPdo) (Request : Nat)
    (s : DISPATCH_STATE) : DISPATCH_STATE :=
  let urb := s.Urb
  let pdoData := s.Device.pdoData
  if urb.Function = URB_FUNCTION_CONTROL_TRANSFER then
    if urb.SetupPacket 6 = 0x04 then
      if pdoData.TargetType = VIGEM_TARGET_TYPE.Xbox360Wired then
        let blobBuffer := s.Device.InterruptBlobStorage
        { s with
          Urb := { urb with
            TransferBuffer :=
              RtlCopyMemory urb.TransferBuffer
                (fun i => blobBuffer (XUSB_BLOB_07_OFFSET + i)) 0x04 }
          status := STATUS_SUCCESS }
      else s
    else if urb.SetupPacket 6 = 0x14 then
      { s with Urb := { urb with Status := USBD_STATUS_STALL_PID }
               status := STATUS_UNSUCCESSFUL }
    else if urb.SetupPacket 6 = 0x08 then
      { s with Urb := { urb with Status := USBD_STATUS_STALL_PID }
               status := STATUS_UNSUCCESSFUL }
    else { s with status := STATUS_SUCCESS }
  else if urb.Function = URB_FUNCTION_CONTROL_TRANSFER_EX then
    { s with status := STATUS_UNSUCCESSFUL }
  else if urb.Function = URB_FUNCTION_BULK_OR_INTERRUPT_TRANSFER then
    s.call (usbPdo.BulkOrInterruptTransfer Request)
  else if urb.Function = URB_FUNCTION_SELECT_CONFIGURATION then
    s.call usbPdo.SelectConfiguration
  else if urb.Function = URB_FUNCTION_SELECT_INTERFACE then
    s.call usbPdo.SelectInterface
  else if urb.Function = URB_FUNCTION_GET_DESCRIPTOR_FROM_DEVICE then
    if urb.DescriptorType = USB_DEVICE_DESCRIPTOR_TYPE then
      s.call usbPdo.GetDeviceDescriptorType
    else if urb.DescriptorType = USB_CONFIGURATION_DESCRIPTOR_TYPE then
      s.call usbPdo.GetConfigurationDescriptorType
    else if urb.DescriptorType = USB_STRING_DESCRIPTOR_TYPE then
      s.call usbPdo.GetStringDescriptorType
    else if urb.DescriptorType = USB_INTERFACE_DESCRIPTOR_TYPE then s
    else if urb.DescriptorType = USB_ENDPOINT_DESCRIPTOR_TYPE then s
    else s
  else if urb.Function = URB_FUNCTION_GET_STATUS_FROM_DEVICE then
    { s with status := STATUS_SUCCESS }
  else if urb.Function = URB_FUNCTION_ABORT_PIPE then
    let r := usbPdo.AbortPipe s.Device
    { s with status := r.1, Device := r.2 }
  else if urb.Function = URB_FUNCTION_CLASS_INTERFACE then
    s.call usbPdo.ClassInterface
  else if urb.Function = URB_FUNCTION_GET_DESCRIPTOR_FROM_INTERFACE then
    let s1 := s.call usbPdo.GetDescriptorFromInterface
    if s1.Device.pdoData.TargetType = VIGEM_TARGET_TYPE.DualShock4Wired then
      { s1 with
        Reports := s1.Reports ++
          [{ Stage := VIGEM_PDO_STAGE.ViGEmPdoInitFinished
             SerialNo := s1.Device.pdoData.SerialNo
             Status := STATUS_SUCCESS }] }
    else s1
  else s

/-- Source: `Pdo_EvtIoInternalDeviceControl`, the outer
`switch (IoControlCode)`: everything before the completion test. -/
def dispatchSwitch (XUSB_BLOB_07_OFFSET : Nat) (usbPdo : UsbPdo) (Request : Nat)
    (IoControlCode : Nat) (s : DISPATCH_STATE) : DISPATCH_STATE :=
  if IoControlCode = IOCTL_INTERNAL_USB_SUBMIT_URB then
    submitUrb XUSB_BLOB_07_OFFSET usbPdo Request s
  else if IoControlCode = IOCTL_INTERNAL_USB_GET_PORT_STATUS then
    { s with PortStatus := USBD_PORT_ENABLED ||| USBD_PORT_CONNECTED
             status := STATUS_SUCCESS }
  else if IoControlCode = IOCTL_INTERNAL_USB_RESET_PORT then
    { s with status := STATUS_SUCCESS }
  else if IoControlCode = IOCTL_INTERNAL_USB_SUBMIT_IDLE_NOTIFICATION then
    { s with status := STATUS_SUCCESS }
  else s

/-- Source: `Pdo_EvtIoInternalDeviceControl`.  `hDevice` is the device of the
queue, `Request` the request handle, `irp` its IRP.  The local `status` starts
as `STATUS_INVALID_PARAMETER`; after the switch the request is completed with
`status` unless `status` is `STATUS_PENDING`. -/
def Pdo_EvtIoInternalDeviceControl (XUSB_BLOB_07_OFFSET : Nat) (usbPdo : UsbPdo)
    (hDevice : DEVICE) (Request : Nat) (irp : IRP) (IoControlCode : Nat) :
    DISPATCH_STATE :=
  let s0 : DISPATCH_STATE :=
    { status := STATUS_INVALID_PARAMETER
      Urb := irp.Urb
      Device := hDevice
      PortStatus := irp.PortStatus
      Reports := []
      Completed := [] }
  let s := dispatchSwitch XUSB_BLOB_07_OFFSET usbPdo Request IoControlCode s0
  if s.status ≠ STATUS_PENDING then
    { s with Completed := s.Completed ++ [s.status] }
  else s

/-! ## Device creation: the instance id -/

/-- Decimal digits of `n`, least significant first, at most `fuel` of them. -/
def decimalRev : Nat → Nat → List Nat
  | 0, _ => []
  | fuel + 1, n => if n < 10 then [n] else n % 10 :: decimalRev fuel (n / 10)

/-- Decimal digits of a value below `10 ^ 10` (every 32-bit value is), most
significant first, as characters. -/
def decimalDigits (n : Nat) : List Char :=
  (decimalRev 10 n).reverse.map Nat.digitChar

/-- The C conversion `%02d` on a 32-bit argument: the argument is read as a
signed `int`; the minimum field width is 2 and the field is padded with zeros
after the sign. -/
def format_02d (arg : Nat) : List Char :=
  let v := arg % 2 ^ 32
  if v < 2 ^ 31 then
    let ds := decimalDigits v
    List.replicate (2 - ds.length) '0' ++ ds
  else
    let ds := decimalDigits (2 ^ 32 - v)
    '-' :: (List.replicate (2 - (1 + ds.length)) '0' ++ ds)

/-- Source: `Bus_CreatePdo`, the string that
`RtlUnicodeStringPrintf(&buffer, L"%02d", Description->SerialNo)` leaves in
`buffer`, which is then passed to `WdfPdoInitAssignInstanceID`. -/
def instanceId (SerialNo : Nat) : String :=
  String.mk (format_02d SerialNo)

/-- The number a list of decimal digit characters denotes. -/
def decimalValue (cs : List Char) : Nat :=
  cs.foldl (fun acc c => 10 * acc + (c.toNat - 48)) 0

/-! ## Device creation: code -/

/-- The three queues `Bus_CreatePdo` creates. -/
inductive PDO_QUEUE where
  | PendingUsbInRequests
  | PendingNotificationRequests
  | Default
  deriving DecidableEq, Repr

/-- The calls of `Bus_CreatePdo` that can fail or that change the device, in
the order the function makes them.  The setters on `DeviceInit` that cannot fail
(device type, power policy ownership, characteristics, default locale, PnP/power
callbacks, forwarding to parent) are not recorded. -/
inductive CREATE_CALL where
  | WdfFdoQueryForInterface
  | WdfPdoInitAssignRawDevice
  | WdfDeviceInitAssignSDDLString
  | Xusb_PreparePdo (VendorId ProductId : Nat)
  | Ds4_PreparePdo
  | Xgip_PreparePdo
  | WdfPdoInitAssignDeviceID
  | RtlUnicodeStringPrintf (SerialNo : Nat)
  | WdfPdoInitAssignInstanceID (buffer : String)
  | WdfPdoInitAddDeviceText
  | WdfDeviceCreate
  | WdfObjectAllocateContext (family : VIGEM_TARGET_TYPE)
  | WdfDeviceCreateDeviceInterface
  /-- The assignments to `pdoData->SerialNo`, `TargetType`, `OwnerProcessId`,
  `VendorId`, `ProductId` of the region "Set PDO contexts". -/
  | SetPdoContext (SerialNo : Nat) (TargetType : VIGEM_TARGET_TYPE)
      (OwnerProcessId VendorId ProductId : Nat)
  | Xusb_AssignPdoContext
  | Ds4_AssignPdoContext
  | Xgip_AssignPdoContext
  | WdfIoQueueCreate (queue : PDO_QUEUE)
  | WdfDeviceSetPnpCapabilities (Address UINumber : Nat)
  | WdfDeviceSetPowerCapabilities
  | BUS_PDO_REPORT_STAGE_RESULT (report : STAGE_REPORT)
  deriving DecidableEq, Repr

/-- The status each fallible call of `Bus_CreatePdo` returns. -/
structure CREATE_RESULTS where
  WdfFdoQueryForInterface : NTSTATUS
  WdfPdoInitAssignRawDevice : NTSTATUS
  WdfDeviceInitAssignSDDLString : NTSTATUS
  Xusb_PreparePdo : NTSTATUS
  Ds4_PreparePdo : NTSTATUS
  Xgip_PreparePdo : NTSTATUS
  WdfPdoInitAssignDeviceID : NTSTATUS
  RtlUnicodeStringPrintf : NTSTATUS
  WdfPdoInitAssignInstanceID : NTSTATUS
  WdfPdoInitAddDeviceText : NTSTATUS
  WdfDeviceCreate : NTSTATUS
  WdfObjectAllocateContext : NTSTATUS
  WdfDeviceCreateDeviceInterface : NTSTATUS
  Xusb_AssignPdoContext : NTSTATUS
  Ds4_AssignPdoContext : NTSTATUS
  Xgip_AssignPdoContext : NTSTATUS
  WdfIoQueueCreatePendingUsbInRequests : NTSTATUS
  WdfIoQueueCreatePendingNotificationRequests : NTSTATUS
  WdfIoQueueCreateDefault : NTSTATUS
  deriving Repr

/-- The pattern `status = call(...); if (!NT_SUCCESS(status)) goto endCreatePdo;`:
the call is made; on failure the body ends with the status of the call, on
success the rest of the body runs. -/
def fallible (call : CREATE_CALL) (status : NTSTATUS)
    (rest : NTSTATUS × List CREATE_CALL) : NTSTATUS × List CREATE_CALL :=
  if NT_SUCCESS status then (rest.1, call :: rest.2) else (status, [call])

/-- A call or assignment that cannot fail, followed by the rest of the body. -/
def infallible (call : CREATE_CALL)
    (rest : NTSTATUS × List CREATE_CALL) : NTSTATUS × List CREATE_CALL :=
  (rest.1, call :: rest.2)

/-- Source: `Bus_CreatePdo`, from the region "Create Queues & Locks" to the
label `endCreatePdo`. -/
def createQueues (r : CREATE_RESULTS) (Description : PDO_IDENTIFICATION_DESCRIPTION) :
    NTSTATUS × List CREATE_CALL :=
  fallible (.WdfIoQueueCreate .PendingUsbInRequests)
    r.WdfIoQueueCreatePendingUsbInRequests <|
  fallible (.WdfIoQueueCreate .PendingNotificationRequests)
    r.WdfIoQueueCreatePendingNotificationRequests <|
  fallible (.WdfIoQueueCreate .Default) r.WdfIoQueueCreateDefault <|
  infallible (.WdfDeviceSetPnpCapabilities Description.SerialNo Description.SerialNo) <|
  infallible .WdfDeviceSetPowerCapabilities <|
  (r.WdfIoQueueCreateDefault, [])

/-- Source: `Bus_CreatePdo`, the regions "Expose USB Interface" and "Set PDO
contexts".  For a target type outside the three families the third switch
leaves `status` as it is. -/
def exposeAndSetContexts (r : CREATE_RESULTS)
    (Description : PDO_IDENTIFICATION_DESCRIPTION) : NTSTATUS × List CREATE_CALL :=
  fallible .WdfDeviceCreateDeviceInterface r.WdfDeviceCreateDeviceInterface <|
  infallible (.SetPdoContext Description.SerialNo Description.TargetType
    Description.OwnerProcessId Description.VendorId Description.ProductId) <|
  match Description.TargetType with
  | .Xbox360Wired =>
    fallible .Xusb_AssignPdoContext r.Xusb_AssignPdoContext (createQueues r Description)
  | .DualShock4Wired =>
    fallible .Ds4_AssignPdoContext r.Ds4_AssignPdoContext (createQueues r Description)
  | .XboxOneWired =>
    fallible .Xgip_AssignPdoContext r.Xgip_AssignPdoContext (createQueues r Description)
  | .Unknown => createQueues r Description

/-- Source: `Bus_CreatePdo`, from `WdfPdoInitAssignDeviceID` to the end of the
region "Create PDO". -/
def assignIdsAndCreate (r : CREATE_RESULTS)
    (Description : PDO_IDENTIFICATION_DESCRIPTION) : NTSTATUS × List CREATE_CALL :=
  fallible .WdfPdoInitAssignDeviceID r.WdfPdoInitAssignDeviceID <|
  fallible (.RtlUnicodeStringPrintf Description.SerialNo) r.RtlUnicodeStringPrintf <|
  fallible (.WdfPdoInitAssignInstanceID (instanceId Description.SerialNo))
    r.WdfPdoInitAssignInstanceID <|
  fallible .WdfPdoInitAddDeviceText r.WdfPdoInitAddDeviceText <|
  fallible .WdfDeviceCreate r.WdfDeviceCreate <|
  match Description.TargetType with
  | .Xbox360Wired =>
    fallible (.WdfObjectAllocateContext .Xbox360Wired) r.WdfObjectAllocateContext
      (exposeAndSetContexts r Description)
  | .DualShock4Wired =>
    fallible (.WdfObjectAllocateContext .DualShock4Wired) r.WdfObjectAllocateContext
      (exposeAndSetContexts r Description)
  | .XboxOneWired =>
    fallible (.WdfObjectAllocateContext .XboxOneWired) r.WdfObjectAllocateContext
      (exposeAndSetContexts r Description)
  | .Unknown => exposeAndSetContexts r Description

/-- Source: `Bus_CreatePdo`, everything between the interface query and the
label `endCreatePdo`: the value of `status` at the label and the calls made. -/
def createPdoBody (r : CREATE_RESULTS) (Description : PDO_IDENTIFICATION_DESCRIPTION) :
    NTSTATUS × List CREATE_CALL :=
  fallible .WdfPdoInitAssignRawDevice r.WdfPdoInitAssignRawDevice <|
  fallible .WdfDeviceInitAssignSDDLString r.WdfDeviceInitAssignSDDLString <|
  match Description.TargetType with
  | .Xbox360Wired =>
    fallible (.Xusb_PreparePdo Description.VendorId Description.ProductId)
      r.Xusb_PreparePdo (assignIdsAndCreate r Description)
  | .DualShock4Wired =>
    fallible .Ds4_PreparePdo r.Ds4_PreparePdo (assignIdsAndCreate r Description)
  | .XboxOneWired =>
    fallible .Xgip_PreparePdo r.Xgip_PreparePdo (assignIdsAndCreate r Description)
  | .Unknown => (STATUS_INVALID_PARAMETER, [])

/-- Source: `Bus_CreatePdo`.  Returns the status and the calls made, in order.
When the interface query fails the function returns at once; otherwise every
path reaches the label `endCreatePdo`, where the stage result is reported. -/
def Bus_CreatePdo (r : CREATE_RESULTS) (Description : PDO_IDENTIFICATION_DESCRIPTION) :
    NTSTATUS × List CREATE_CALL :=
  if NT_SUCCESS r.WdfFdoQueryForInterface then
    let body := createPdoBody r Description
    (body.1,
      CREATE_CALL.WdfFdoQueryForInterface :: body.2 ++
        [CREATE_CALL.BUS_PDO_REPORT_STAGE_RESULT
          { Stage := VIGEM_PDO_STAGE.ViGEmPdoCreate
            SerialNo := Description.SerialNo
            Status := body.1 }])
  else (r.WdfFdoQueryForInterface, [CREATE_CALL.WdfFdoQueryForInterface])

/-- The stage reports among the calls of `Bus_CreatePdo`, in order. -/
def createReports : List CREATE_CALL → List STAGE_REPORT
  | [] => []
  | CREATE_CALL.BUS_PDO_REPORT_STAGE_RESULT report :: cs => report :: createReports cs
  | _ :: cs => createReports cs

/-! ## Power-up -/

/-- The status each family hook of `Pdo_EvtDevicePrepareHardware` returns. -/
structure PREPARE_RESULTS where
  Xusb_PrepareHardware : NTSTATUS
  Ds4_PrepareHardware : NTSTATUS
  Xgip_PrepareHardware : NTSTATUS
  deriving Repr

/-- The calls of `Pdo_EvtDevicePrepareHardware`. -/
inductive PREPARE_CALL where
  | Xusb_PrepareHardware
  | Ds4_PrepareHardware
  | Xgip_PrepareHardware
  | BUS_PDO_REPORT_STAGE_RESULT (report : STAGE_REPORT)
  deriving DecidableEq, Repr

/-- Source: `Pdo_EvtDevicePrepareHardware`.  Returns the status and the calls
made, in order.  The local `status` starts as `STATUS_UNSUCCESSFUL`. -/
def Pdo_EvtDevicePrepareHardware (r : PREPARE_RESULTS) (pdoData : PDO_DEVICE_DATA) :
    NTSTATUS × List PREPARE_CALL :=
  let hook : NTSTATUS × List PREPARE_CALL :=
    match pdoData.TargetType with
    | .Xbox360Wired => (r.Xusb_PrepareHardware, [PREPARE_CALL.Xusb_PrepareHardware])
    | .DualShock4Wired => (r.Ds4_PrepareHardware, [PREPARE_CALL.Ds4_PrepareHardware])
    | .XboxOneWired => (r.Xgip_PrepareHardware, [PREPARE_CALL.Xgip_PrepareHardware])
    | .Unknown => (STATUS_UNSUCCESSFUL, [])
  (hook.1,
    hook.2 ++
      [PREPARE_CALL.BUS_PDO_REPORT_STAGE_RESULT
        { Stage := VIGEM_PDO_STAGE.ViGEmPdoPrepareHardware
          SerialNo := pdoData.SerialNo
          Status := hook.1 }])

/-! ## Sample inputs -/

/-- A URB with the given function code, setup byte 6 and descriptor type; its
status is 0, its other setup bytes are 0 and its transfer buffer holds
`100, 101, 102, ...`. -/
def sampleUrb (Function byte6 DescriptorType : Nat) : URB :=
  { Function := Function
    Status := 0
    SetupPacket := fun i => if i = 6 then byte6 else 0
    TransferBuffer := fun i => 100 + i
    DescriptorType := DescriptorType }

/-- A device of the given family with serial number 7, empty queues and the
interrupt blob `0, 1, 2, ...`. -/
def sampleDevice (family : VIGEM_TARGET_TYPE) : DEVICE :=
  { pdoData :=
      { SerialNo := 7
        TargetType := family
        OwnerProcessId := 4242
        VendorId := 0x045E
        ProductId := 0x028E
        PendingUsbInRequests := []
        PendingNotificationRequests := [] }
    InterruptBlobStorage := fun i => i
    FamilyContext := [] }

/-- Delegated routines that change nothing and all return `status`. -/
def sampleUsbPdo (status : NTSTATUS) : UsbPdo :=
  { BulkOrInterruptTransfer := fun _ urb dev => (status, urb, dev)
    SelectConfiguration := fun urb dev => (status, urb, dev)
    SelectInterface := fun urb dev => (status, urb, dev)
    GetDeviceDescriptorType := fun urb dev => (status, urb, dev)
    GetConfigurationDescriptorType := fun urb dev => (status, urb, dev)
    GetStringDescriptorType := fun urb dev => (status, urb, dev)
    AbortPipe := fun dev => (status, dev)
    ClassInterface := fun urb dev => (status, urb, dev)
    GetDescriptorFromInterface := fun urb dev => (status, urb, dev) }

/-- An IRP carrying `urb`, with the port status word 0. -/
def sampleIrp (urb : URB) : IRP :=
  { Urb := urb, PortStatus := 0 }

/-- Results for `Bus_CreatePdo` in which the interface query returns `query`
and every other call returns `STATUS_SUCCESS`. -/
def sampleResults (query : NTSTATUS) : CREATE_RESULTS :=
  { WdfFdoQueryForInterface := query
    WdfPdoInitAssignRawDevice := STATUS_SUCCESS
    WdfDeviceInitAssignSDDLString := STATUS_SUCCESS
    Xusb_PreparePdo := STATUS_SUCCESS
    Ds4_PreparePdo := STATUS_SUCCESS
    Xgip_PreparePdo := STATUS_SUCCESS
    WdfPdoInitAssignDeviceID := STATUS_SUCCESS
    RtlUnicodeStringPrintf := STATUS_SUCCESS
    WdfPdoInitAssignInstanceID := STATUS_SUCCESS
    WdfPdoInitAddDeviceText := STATUS_SUCCESS
    WdfDeviceCreate := STATUS_SUCCESS
    WdfObjectAllocateContext := STATUS_SUCCESS
    WdfDeviceCreateDeviceInterface := STATUS_SUCCESS
    Xusb_AssignPdoContext := STATUS_SUCCESS
    Ds4_AssignPdoContext := STATUS_SUCCESS
    Xgip_AssignPdoContext := STATUS_SUCCESS
    WdfIoQueueCreatePendingUsbInRequests := STATUS_SUCCESS
    WdfIoQueueCreatePendingNotificationRequests := STATUS_SUCCESS
    WdfIoQueueCreateDefault := STATUS_SUCCESS }

/-- An identity description with the given serial number and family. -/
def sampleDescription (SerialNo : Nat) (family : VIGEM_TARGET_TYPE) :
    PDO_IDENTIFICATION_DESCRIPTION :=
  { SerialNo := SerialNo
    TargetType := family
    OwnerProcessId := 4242
    VendorId := 0x045E
    ProductId := 0x028E }

/-- Results for `Pdo_EvtDevicePrepareHardware` in which every hook returns
`status`. -/
def samplePrepareResults (status : NTSTATUS) : PREPARE_RESULTS :=
  { Xusb_PrepareHardware := status
    Ds4_PrepareHardware := status
    Xgip_PrepareHardware := status }

/-- Results for `Bus_CreatePdo` in which `WdfDeviceCreateDeviceInterface` returns
`STATUS_UNSUCCESSFUL` and every other call returns `STATUS_SUCCESS`. -/
def sampleResultsExposeFails : CREATE_RESULTS :=
  { sampleResults STATUS_SUCCESS with
    WdfDeviceCreateDeviceInterface := STATUS_UNSUCCESSFUL }

/-! ## Auxiliary definitions for the statements -/

/-- The four I/O control codes the dispatcher has a case for. -/
def recognizedIoControlCodes : List Nat :=
  [IOCTL_INTERNAL_USB_SUBMIT_URB, IOCTL_INTERNAL_USB_GET_PORT_STATUS,
    IOCTL_INTERNAL_USB_RESET_PORT, IOCTL_INTERNAL_USB_SUBMIT_IDLE_NOTIFICATION]

/-- The ten URB function codes the dispatcher has a case for. -/
def recognizedUrbFunctions : List Nat :=
  [URB_FUNCTION_CONTROL_TRANSFER, URB_FUNCTION_CONTROL_TRANSFER_EX,
    URB_FUNCTION_BULK_OR_INTERRUPT_TRANSFER, URB_FUNCTION_SELECT_CONFIGURATION,
    URB_FUNCTION_SELECT_INTERFACE, URB_FUNCTION_GET_DESCRIPTOR_FROM_DEVICE,
    URB_FUNCTION_GET_STATUS_FROM_DEVICE, URB_FUNCTION_ABORT_PIPE,
    URB_FUNCTION_CLASS_INTERFACE, URB_FUNCTION_GET_DESCRIPTOR_FROM_INTERFACE]

/-- The start state of `Pdo_EvtIoInternalDeviceControl`. -/
def dispatchStart (hDevice : DEVICE) (irp : IRP) : DISPATCH_STATE :=
  { status := STATUS_INVALID_PARAMETER
    Urb := irp.Urb
    Device := hDevice
    PortStatus := irp.PortStatus
    Reports := []
    Completed := [] }

/-- The instance id a call assigns, if it is `WdfPdoInitAssignInstanceID`. -/
def assignedInstanceId : CREATE_CALL → Option String
  | CREATE_CALL.WdfPdoInitAssignInstanceID buffer => some buffer
  | _ => none

/-- The call assigns no instance id, or it assigns `id`. -/
def assignsNoneOr (id : String) (c : CREATE_CALL) : Prop :=
  assignedInstanceId c = none ∨ assignedInstanceId c = some id

/-- The status `r` gives to a call of `Bus_CreatePdo`; `none` for the calls and
assignments that return no status. -/
def callStatus (r : CREATE_RESULTS) : CREATE_CALL → Option NTSTATUS
  | CREATE_CALL.WdfFdoQueryForInterface => some r.WdfFdoQueryForInterface
  | CREATE_CALL.WdfPdoInitAssignRawDevice => some r.WdfPdoInitAssignRawDevice
  | CREATE_CALL.WdfDeviceInitAssignSDDLString => some r.WdfDeviceInitAssignSDDLString
  | CREATE_CALL.Xusb_PreparePdo _ _ => some r.Xusb_PreparePdo
  | CREATE_CALL.Ds4_PreparePdo => some r.Ds4_PreparePdo
  | CREATE_CALL.Xgip_PreparePdo => some r.Xgip_PreparePdo
  | CREATE_CALL.WdfPdoInitAssignDeviceID => some r.WdfPdoInitAssignDeviceID
  | CREATE_CALL.RtlUnicodeStringPrintf _ => some r.RtlUnicodeStringPrintf
  | CREATE_CALL.WdfPdoInitAssignInstanceID _ => some r.WdfPdoInitAssignInstanceID
  | CREATE_CALL.WdfPdoInitAddDeviceText => some r.WdfPdoInitAddDeviceText
  | CREATE_CALL.WdfDeviceCreate => some r.WdfDeviceCreate
  | CREATE_CALL.WdfObjectAllocateContext _ => some r.WdfObjectAllocateContext
  | CREATE_CALL.WdfDeviceCreateDeviceInterface => some r.WdfDeviceCreateDeviceInterface
  | CREATE_CALL.SetPdoContext _ _ _ _ _ => none
  | CREATE_CALL.Xusb_AssignPdoContext => some r.Xusb_AssignPdoContext
  | CREATE_CALL.Ds4_AssignPdoContext => some r.Ds4_AssignPdoContext
  | CREATE_CALL.Xgip_AssignPdoContext => some r.Xgip_AssignPdoContext
  | CREATE_CALL.WdfIoQueueCreate PDO_QUEUE.PendingUsbInRequests =>
    some r.WdfIoQueueCreatePendingUsbInRequests
  | CREATE_CALL.WdfIoQueueCreate PDO_QUEUE.PendingNotificationRequests =>
    some r.WdfIoQueueCreatePendingNotificationRequests
  | CREATE_CALL.WdfIoQueueCreate PDO_QUEUE.Default => some r.WdfIoQueueCreateDefault
  | CREATE_CALL.WdfDeviceSetPnpCapabilities _ _ => none
  | CREATE_CALL.WdfDeviceSetPowerCapabilities => none
  | CREATE_CALL.BUS_PDO_REPORT_STAGE_RESULT _ => none

/-- The calls the source of `Bus_CreatePdo` makes between the interface query
and the label `endCreatePdo`, in the order of the source text, for a family
whose preparation call is `prepare` and whose context call is `assign`. -/
def familyCreationOrder (prepare assign : CREATE_CALL)
    (Description : PDO_IDENTIFICATION_DESCRIPTION) : List CREATE_CALL :=
  [CREATE_CALL.WdfPdoInitAssignRawDevice,
    CREATE_CALL.WdfDeviceInitAssignSDDLString,
    prepare,
    CREATE_CALL.WdfPdoInitAssignDeviceID,
    CREATE_CALL.RtlUnicodeStringPrintf Description.SerialNo,
    CREATE_CALL.WdfPdoInitAssignInstanceID (instanceId Description.SerialNo),
    CREATE_CALL.WdfPdoInitAddDeviceText,
    CREATE_CALL.WdfDeviceCreate,
    CREATE_CALL.WdfObjectAllocateContext Description.TargetType,
    CREATE_CALL.WdfDeviceCreateDeviceInterface,
    CREATE_CALL.SetPdoContext Description.SerialNo Description.TargetType
      Description.OwnerProcessId Description.VendorId Description.ProductId,
    assign,
    CREATE_CALL.WdfIoQueueCreate PDO_QUEUE.PendingUsbInRequests,
    CREATE_CALL.WdfIoQueueCreate PDO_QUEUE.PendingNotificationRequests,
    CREATE_CALL.WdfIoQueueCreate PDO_QUEUE.Default,
    CREATE_CALL.WdfDeviceSetPnpCapabilities Description.SerialNo Description.SerialNo,
    CREATE_CALL.WdfDeviceSetPowerCapabilities]

/-- The order of the creation steps in the source, per family: preparation of
identifiers and description, device id and instance id, device text, device
creation and family context allocation, USB device interface creation,
population of the context, the family context call, the three queues, the
capabilities.  For a target type outside the three families the first switch
ends the body after the first two calls. -/
def creationOrder (Description : PDO_IDENTIFICATION_DESCRIPTION) : List CREATE_CALL :=
  match Description.TargetType with
  | VIGEM_TARGET_TYPE.Xbox360Wired =>
    familyCreationOrder
      (CREATE_CALL.Xusb_PreparePdo Description.VendorId Description.ProductId)
      CREATE_CALL.Xusb_AssignPdoContext Description
  | VIGEM_TARGET_TYPE.DualShock4Wired =>
    familyCreationOrder CREATE_CALL.Ds4_PreparePdo CREATE_CALL.Ds4_AssignPdoContext
      Description
  | VIGEM_TARGET_TYPE.XboxOneWired =>
    familyCreationOrder CREATE_CALL.Xgip_PreparePdo CREATE_CALL.Xgip_AssignPdoContext
      Description
  | VIGEM_TARGET_TYPE.Unknown =>
    [CREATE_CALL.WdfPdoInitAssignRawDevice, CREATE_CALL.WdfDeviceInitAssignSDDLString]

/-- A run `p` (final status and calls) follows the order `full` under the
results `r`: the calls are a prefix of `full`; a call that returned a failure
is the last call and its status is the final status; and the run stops short
of `full` only at a call that returned a failure. -/
def runsInOrder (r : CREATE_RESULTS) (full : List CREATE_CALL)
    (p : NTSTATUS × List CREATE_CALL) : Prop :=
  p.2 <+: full ∧
  (∀ c ∈ p.2, ∀ st, callStatus r c = some st → NT_SUCCESS st = false →
    p.2.getLast? = some c ∧ p.1 = st) ∧
  (p.2 = full ∨
    ∃ c st, p.2.getLast? = some c ∧ callStatus r c = some st ∧ NT_SUCCESS st = false)

/-- The calls that follow the USB device interface creation in the source:
population of the context, the family context calls, queue creation and the
capabilities. -/
def afterExpose : CREATE_CALL → Bool
  | CREATE_CALL.SetPdoContext _ _ _ _ _ => true
  | CREATE_CALL.Xusb_AssignPdoContext => true
  | CREATE_CALL.Ds4_AssignPdoContext => true
  | CREATE_CALL.Xgip_AssignPdoContext => true
  | CREATE_CALL.WdfIoQueueCreate _ => true
  | CREATE_CALL.WdfDeviceSetPnpCapabilities _ _ => true
  | CREATE_CALL.WdfDeviceSetPowerCapabilities => true
  | _ => false

/-- The value of the digits, least significant first. -/
def digitsValueRev : List Nat → Nat
  | [] => 0
  | d :: ds => d + 10 * digitsValueRev ds

/-! ## Theorems: control transfers -/

/-- C1: a control-transfer URB whose setup byte 6 is 0x08 or 0x14 gets the URB
header status `USBD_STATUS_STALL_PID` and is completed once, with
`STATUS_UNSUCCESSFUL` (a failure code, neither success nor pending), for every
device family, buffer content and other setup bytes; the transfer buffer, the
rest of the URB and the device are unchanged. -/
theorem control_transfer_legacy_probe_stalls (XUSB_BLOB_07_OFFSET : Nat)
    (usbPdo : UsbPdo) (hDevice : DEVICE) (Request : Nat) (irp : IRP)
    (hFunction : irp.Urb.Function = URB_FUNCTION_CONTROL_TRANSFER)
    (hByte6 : irp.Urb.SetupPacket 6 = 0x08 ∨ irp.Urb.SetupPacket 6 = 0x14) :
    Pdo_EvtIoInternalDeviceControl XUSB_BLOB_07_OFFSET usbPdo hDevice Request irp
        IOCTL_INTERNAL_USB_SUBMIT_URB =
      { status := STATUS_UNSUCCESSFUL
        Urb := { irp.Urb with Status := USBD_STATUS_STALL_PID }
        Device := hDevice
        PortStatus := irp.PortStatus
        Reports := []
        Completed := [STATUS_UNSUCCESSFUL] } ∧
    NT_SUCCESS STATUS_UNSUCCESSFUL = false ∧
    STATUS_UNSUCCESSFUL ≠ STATUS_SUCCESS ∧
    STATUS_UNSUCCESSFUL ≠ STATUS_PENDING := by
  refine ⟨?_, by decide, by decide, by decide⟩
  rcases hByte6 with h | h <;>
    simp [Pdo_EvtIoInternalDeviceControl, dispatchSwitch, submitUrb, hFunction, h,
      STATUS_UNSUCCESSFUL, STATUS_PENDING]

/-- Witness for C1: a DualShock 4 device, setup byte 6 equal to 0x14. -/
theorem control_transfer_legacy_probe_stalls_witness :
    (Pdo_EvtIoInternalDeviceControl 0x26 (sampleUsbPdo STATUS_SUCCESS)
        (sampleDevice VIGEM_TARGET_TYPE.DualShock4Wired) 1
        (sampleIrp (sampleUrb URB_FUNCTION_CONTROL_TRANSFER 0x14 0))
        IOCTL_INTERNAL_USB_SUBMIT_URB).Completed = [STATUS_UNSUCCESSFUL] :=
  congrArg DISPATCH_STATE.Completed
    (control_transfer_legacy_probe_stalls 0x26 (sampleUsbPdo STATUS_SUCCESS)
      (sampleDevice VIGEM_TARGET_TYPE.DualShock4Wired) 1
      (sampleIrp (sampleUrb URB_FUNCTION_CONTROL_TRANSFER 0x14 0)) rfl (Or.inr rfl)).1

/-- C2: on an Xbox 360 device, a control-transfer URB whose setup byte 6 is 0x04
is completed once, with `STATUS_SUCCESS`; afterwards bytes 0 to 3 of the
transfer buffer are the four bytes of the interrupt blob from
`XUSB_BLOB_07_OFFSET` on, every later buffer byte is as before, and the device
(the blob included) is unchanged. -/
theorem xusb_control_transfer_copies_blob (XUSB_BLOB_07_OFFSET : Nat)
    (usbPdo : UsbPdo) (hDevice : DEVICE) (Request : Nat) (irp : IRP)
    (hFamily : hDevice.pdoData.TargetType = VIGEM_TARGET_TYPE.Xbox360Wired)
    (hFunction : irp.Urb.Function = URB_FUNCTION_CONTROL_TRANSFER)
    (hByte6 : irp.Urb.SetupPacket 6 = 0x04) :
    (Pdo_EvtIoInternalDeviceControl XUSB_BLOB_07_OFFSET usbPdo hDevice Request irp
        IOCTL_INTERNAL_USB_SUBMIT_URB).Completed = [STATUS_SUCCESS] ∧
    (∀ i, i < 4 →
      (Pdo_EvtIoInternalDeviceControl XUSB_BLOB_07_OFFSET usbPdo hDevice Request irp
          IOCTL_INTERNAL_USB_SUBMIT_URB).Urb.TransferBuffer i =
        hDevice.InterruptBlobStorage (XUSB_BLOB_07_OFFSET + i)) ∧
    (∀ i, 4 ≤ i →
      (Pdo_EvtIoInternalDeviceControl XUSB_BLOB_07_OFFSET usbPdo hDevice Request irp
          IOCTL_INTERNAL_USB_SUBMIT_URB).Urb.TransferBuffer i =
        irp.Urb.TransferBuffer i) ∧
    (Pdo_EvtIoInternalDeviceControl XUSB_BLOB_07_OFFSET usbPdo hDevice Request irp
        IOCTL_INTERNAL_USB_SUBMIT_URB).Device = hDevice := by
  have hState :
      Pdo_EvtIoInternalDeviceControl XUSB_BLOB_07_OFFSET usbPdo hDevice Request irp
          IOCTL_INTERNAL_USB_SUBMIT_URB =
        { status := STATUS_SUCCESS
          Urb := { irp.Urb with
            TransferBuffer :=
              RtlCopyMemory irp.Urb.TransferBuffer
                (fun i => hDevice.InterruptBlobStorage (XUSB_BLOB_07_OFFSET + i)) 0x04 }
          Device := hDevice
          PortStatus := irp.PortStatus
          Reports := []
          Completed := [STATUS_SUCCESS] } := by
    simp [Pdo_EvtIoInternalDeviceControl, dispatchSwitch, submitUrb, hFunction, hByte6,
      hFamily, STATUS_SUCCESS, STATUS_PENDING]
  rw [hState]
  refine ⟨rfl, ?_, ?_, rfl⟩
  · intro i hi
    simp [RtlCopyMemory, hi]
  · intro i hi
    have hnot : ¬ i < 4 := by omega
    simp [RtlCopyMemory, hnot]

/-- Witness for C2: with the blob `0, 1, 2, ...` and offset 0x26, byte 3 of the
transfer buffer becomes 0x29. -/
theorem xusb_control_transfer_copies_blob_witness :
    (Pdo_EvtIoInternalDeviceControl 0x26 (sampleUsbPdo STATUS_SUCCESS)
        (sampleDevice VIGEM_TARGET_TYPE.Xbox360Wired) 1
        (sampleIrp (sampleUrb URB_FUNCTION_CONTROL_TRANSFER 0x04 0))
        IOCTL_INTERNAL_USB_SUBMIT_URB).Urb.TransferBuffer 3 = 0x29 :=
  (xusb_control_transfer_copies_blob 0x26 (sampleUsbPdo STATUS_SUCCESS)
    (sampleDevice VIGEM_TARGET_TYPE.Xbox360Wired) 1
    (sampleIrp (sampleUrb URB_FUNCTION_CONTROL_TRANSFER 0x04 0)) rfl rfl rfl).2.1 3
    (by decide)

/-- C3, as the code has it: on a DualShock 4 or Xbox One device, a
control-transfer URB whose setup byte 6 is 0x04 changes nothing (no blob copy:
URB, transfer buffer and device are as before) and is completed once, with
`STATUS_INVALID_PARAMETER`, the initial value of `status`, which is a failure
code. -/
theorem other_family_control_transfer_04 (XUSB_BLOB_07_OFFSET : Nat)
    (usbPdo : UsbPdo) (hDevice : DEVICE) (Request : Nat) (irp : IRP)
    (hFamily : hDevice.pdoData.TargetType = VIGEM_TARGET_TYPE.DualShock4Wired ∨
      hDevice.pdoData.TargetType = VIGEM_TARGET_TYPE.XboxOneWired)
    (hFunction : irp.Urb.Function = URB_FUNCTION_CONTROL_TRANSFER)
    (hByte6 : irp.Urb.SetupPacket 6 = 0x04) :
    Pdo_EvtIoInternalDeviceControl XUSB_BLOB_07_OFFSET usbPdo hDevice Request irp
        IOCTL_INTERNAL_USB_SUBMIT_URB =
      { status := STATUS_INVALID_PARAMETER
        Urb := irp.Urb
        Device := hDevice
        PortStatus := irp.PortStatus
        Reports := []
        Completed := [STATUS_INVALID_PARAMETER] } ∧
    NT_SUCCESS STATUS_INVALID_PARAMETER = false := by
  refine ⟨?_, by decide⟩
  rcases hFamily with h | h <;>
    simp [Pdo_EvtIoInternalDeviceControl, dispatchSwitch, submitUrb, hFunction, hByte6,
      h, STATUS_INVALID_PARAMETER, STATUS_PENDING]

/-- Witness for C3 as amended: an Xbox One device. -/
theorem other_family_control_transfer_04_witness :
    (Pdo_EvtIoInternalDeviceControl 0x26 (sampleUsbPdo STATUS_SUCCESS)
        (sampleDevice VIGEM_TARGET_TYPE.XboxOneWired) 1
        (sampleIrp (sampleUrb URB_FUNCTION_CONTROL_TRANSFER 0x04 0))
        IOCTL_INTERNAL_USB_SUBMIT_URB).Completed = [STATUS_INVALID_PARAMETER] :=
  congrArg DISPATCH_STATE.Completed
    (other_family_control_transfer_04 0x26 (sampleUsbPdo STATUS_SUCCESS)
      (sampleDevice VIGEM_TARGET_TYPE.XboxOneWired) 1
      (sampleIrp (sampleUrb URB_FUNCTION_CONTROL_TRANSFER 0x04 0)) (Or.inr rfl) rfl rfl).1

/-- Counterexample to C3 as stated: on a DualShock 4 device the request with
setup byte 6 equal to 0x04 is completed with `STATUS_INVALID_PARAMETER`, which
is not a success code, while the same request with the unlisted value 0x05 is
completed with `STATUS_SUCCESS`. -/
theorem ds4_control_transfer_04_rejected :
    (Pdo_EvtIoInternalDeviceControl 0x26 (sampleUsbPdo STATUS_SUCCESS)
        (sampleDevice VIGEM_TARGET_TYPE.DualShock4Wired) 1
        (sampleIrp (sampleUrb URB_FUNCTION_CONTROL_TRANSFER 0x04 0))
        IOCTL_INTERNAL_USB_SUBMIT_URB).Completed = [STATUS_INVALID_PARAMETER] ∧
    NT_SUCCESS STATUS_INVALID_PARAMETER = false ∧
    (Pdo_EvtIoInternalDeviceControl 0x26 (sampleUsbPdo STATUS_SUCCESS)
        (sampleDevice VIGEM_TARGET_TYPE.DualShock4Wired) 1
        (sampleIrp (sampleUrb URB_FUNCTION_CONTROL_TRANSFER 0x05 0))
        IOCTL_INTERNAL_USB_SUBMIT_URB).Completed = [STATUS_SUCCESS] ∧
    (Pdo_EvtIoInternalDeviceControl 0x26 (sampleUsbPdo STATUS_SUCCESS)
        (sampleDevice VIGEM_TARGET_TYPE.DualShock4Wired) 1
        (sampleIrp (sampleUrb URB_FUNCTION_CONTROL_TRANSFER 0x04 0))
        IOCTL_INTERNAL_USB_SUBMIT_URB).Completed ≠ [STATUS_SUCCESS] := by
  refine ⟨by decide, by decide, by decide, by decide⟩

/-! ## Theorems: unrecognized codes, descriptors, port requests -/

/-- C4, as the code has it: a request whose I/O control code is none of the four
recognized ones, and a submit-URB request whose function code is none of the ten
recognized ones, changes no URB, device or port state, sends no report, and is
completed once, with `STATUS_INVALID_PARAMETER` (the initial value of
`status`), which is a failure code. -/
theorem unrecognized_code_invalid_parameter (XUSB_BLOB_07_OFFSET : Nat)
    (usbPdo : UsbPdo) (hDevice : DEVICE) (Request : Nat) (irp : IRP)
    (IoControlCode : Nat)
    (hCode : IoControlCode ∉ recognizedIoControlCodes ∨
      (IoControlCode = IOCTL_INTERNAL_USB_SUBMIT_URB ∧
        irp.Urb.Function ∉ recognizedUrbFunctions)) :
    Pdo_EvtIoInternalDeviceControl XUSB_BLOB_07_OFFSET usbPdo hDevice Request irp
        IoControlCode =
      { status := STATUS_INVALID_PARAMETER
        Urb := irp.Urb
        Device := hDevice
        PortStatus := irp.PortStatus
        Reports := []
        Completed := [STATUS_INVALID_PARAMETER] } ∧
    NT_SUCCESS STATUS_INVALID_PARAMETER = false := by
  refine ⟨?_, by decide⟩
  rcases hCode with h | ⟨h, hf⟩
  · simp only [recognizedIoControlCodes, List.mem_cons, List.mem_singleton, not_or,
      List.not_mem_nil, or_false] at h
    obtain ⟨h1, h2, h3, h4⟩ := h
    simp [Pdo_EvtIoInternalDeviceControl, dispatchSwitch, h1, h2, h3, h4,
      STATUS_INVALID_PARAMETER, STATUS_PENDING]
  · simp only [recognizedUrbFunctions, List.mem_cons, List.mem_singleton, not_or,
      List.not_mem_nil, or_false] at hf
    obtain ⟨f1, f2, f3, f4, f5, f6, f7, f8, f9, f10⟩ := hf
    simp [Pdo_EvtIoInternalDeviceControl, dispatchSwitch, submitUrb, h, f1, f2, f3, f4,
      f5, f6, f7, f8, f9, f10, STATUS_INVALID_PARAMETER, STATUS_PENDING]

/-- Witness for C4 as amended: the I/O control code 0, and a submit-URB request
with the function code 0x7F. -/
theorem unrecognized_code_invalid_parameter_witness :
    (Pdo_EvtIoInternalDeviceControl 0x26 (sampleUsbPdo STATUS_SUCCESS)
        (sampleDevice VIGEM_TARGET_TYPE.Xbox360Wired) 1
        (sampleIrp (sampleUrb 0 0 0)) 0).Completed = [STATUS_INVALID_PARAMETER] ∧
    (Pdo_EvtIoInternalDeviceControl 0x26 (sampleUsbPdo STATUS_SUCCESS)
        (sampleDevice VIGEM_TARGET_TYPE.Xbox360Wired) 1
        (sampleIrp (sampleUrb 0x7F 0 0))
        IOCTL_INTERNAL_USB_SUBMIT_URB).Completed = [STATUS_INVALID_PARAMETER] :=
  ⟨congrArg DISPATCH_STATE.Completed
    (unrecognized_code_invalid_parameter 0x26 (sampleUsbPdo STATUS_SUCCESS)
      (sampleDevice VIGEM_TARGET_TYPE.Xbox360Wired) 1 (sampleIrp (sampleUrb 0 0 0)) 0
      (Or.inl (by decide))).1,
   congrArg DISPATCH_STATE.Completed
    (unrecognized_code_invalid_parameter 0x26 (sampleUsbPdo STATUS_SUCCESS)
      (sampleDevice VIGEM_TARGET_TYPE.Xbox360Wired) 1 (sampleIrp (sampleUrb 0x7F 0 0))
      IOCTL_INTERNAL_USB_SUBMIT_URB (Or.inr ⟨rfl, by decide⟩)).1⟩

/-- Counterexample to C4 as stated: the unrecognized I/O control code 0 and the
unrecognized URB function code 0x7F are both completed with
`STATUS_INVALID_PARAMETER`, which is not a success code. -/
theorem unrecognized_code_not_success :
    0 ∉ recognizedIoControlCodes ∧
    (Pdo_EvtIoInternalDeviceControl 0x26 (sampleUsbPdo STATUS_SUCCESS)
        (sampleDevice VIGEM_TARGET_TYPE.Xbox360Wired) 1
        (sampleIrp (sampleUrb 0 0 0)) 0).Completed = [STATUS_INVALID_PARAMETER] ∧
    0x7F ∉ recognizedUrbFunctions ∧
    (Pdo_EvtIoInternalDeviceControl 0x26 (sampleUsbPdo STATUS_SUCCESS)
        (sampleDevice VIGEM_TARGET_TYPE.Xbox360Wired) 1
        (sampleIrp (sampleUrb 0x7F 0 0))
        IOCTL_INTERNAL_USB_SUBMIT_URB).Completed = [STATUS_INVALID_PARAMETER] ∧
    NT_SUCCESS STATUS_INVALID_PARAMETER = false := by
  refine ⟨by decide, by decide, by decide, by decide, by decide⟩

/-- C5, as the code has it: a get-descriptor-from-device URB whose descriptor
type is the interface or the endpoint type writes nothing (URB, transfer buffer
and device are as before, whatever the delegated routines are) and is completed
once, with `STATUS_INVALID_PARAMETER` (the initial value of `status`), which
is a failure code. -/
theorem interface_endpoint_descriptor_invalid_parameter (XUSB_BLOB_07_OFFSET : Nat)
    (usbPdo : UsbPdo) (hDevice : DEVICE) (Request : Nat) (irp : IRP)
    (hFunction : irp.Urb.Function = URB_FUNCTION_GET_DESCRIPTOR_FROM_DEVICE)
    (hType : irp.Urb.DescriptorType = USB_INTERFACE_DESCRIPTOR_TYPE ∨
      irp.Urb.DescriptorType = USB_ENDPOINT_DESCRIPTOR_TYPE) :
    Pdo_EvtIoInternalDeviceControl XUSB_BLOB_07_OFFSET usbPdo hDevice Request irp
        IOCTL_INTERNAL_USB_SUBMIT_URB =
      { status := STATUS_INVALID_PARAMETER
        Urb := irp.Urb
        Device := hDevice
        PortStatus := irp.PortStatus
        Reports := []
        Completed := [STATUS_INVALID_PARAMETER] } ∧
    NT_SUCCESS STATUS_INVALID_PARAMETER = false := by
  refine ⟨?_, by decide⟩
  rcases hType with h | h <;>
    simp [Pdo_EvtIoInternalDeviceControl, dispatchSwitch, submitUrb, hFunction, h,
      URB_FUNCTION_GET_DESCRIPTOR_FROM_DEVICE, URB_FUNCTION_CONTROL_TRANSFER,
      URB_FUNCTION_CONTROL_TRANSFER_EX, URB_FUNCTION_BULK_OR_INTERRUPT_TRANSFER,
      URB_FUNCTION_SELECT_CONFIGURATION, URB_FUNCTION_SELECT_INTERFACE,
      USB_INTERFACE_DESCRIPTOR_TYPE, USB_ENDPOINT_DESCRIPTOR_TYPE,
      USB_DEVICE_DESCRIPTOR_TYPE, USB_CONFIGURATION_DESCRIPTOR_TYPE,
      USB_STRING_DESCRIPTOR_TYPE, STATUS_INVALID_PARAMETER, STATUS_PENDING]

/-- Witness for C5 as amended: the endpoint descriptor type. -/
theorem interface_endpoint_descriptor_invalid_parameter_witness :
    (Pdo_EvtIoInternalDeviceControl 0x26 (sampleUsbPdo STATUS_SUCCESS)
        (sampleDevice VIGEM_TARGET_TYPE.Xbox360Wired) 1
        (sampleIrp (sampleUrb URB_FUNCTION_GET_DESCRIPTOR_FROM_DEVICE 0
          USB_ENDPOINT_DESCRIPTOR_TYPE))
        IOCTL_INTERNAL_USB_SUBMIT_URB).Completed = [STATUS_INVALID_PARAMETER] :=
  congrArg DISPATCH_STATE.Completed
    (interface_endpoint_descriptor_invalid_parameter 0x26 (sampleUsbPdo STATUS_SUCCESS)
      (sampleDevice VIGEM_TARGET_TYPE.Xbox360Wired) 1
      (sampleIrp (sampleUrb URB_FUNCTION_GET_DESCRIPTOR_FROM_DEVICE 0
        USB_ENDPOINT_DESCRIPTOR_TYPE)) rfl (Or.inr rfl)).1

/-- Counterexample to C5 as stated: the interface descriptor type on an Xbox 360
device is completed with `STATUS_INVALID_PARAMETER`, not with a success code. -/
theorem interface_descriptor_not_success :
    (Pdo_EvtIoInternalDeviceControl 0x26 (sampleUsbPdo STATUS_SUCCESS)
        (sampleDevice VIGEM_TARGET_TYPE.Xbox360Wired) 1
        (sampleIrp (sampleUrb URB_FUNCTION_GET_DESCRIPTOR_FROM_DEVICE 0
          USB_INTERFACE_DESCRIPTOR_TYPE))
        IOCTL_INTERNAL_USB_SUBMIT_URB).Completed = [STATUS_INVALID_PARAMETER] ∧
    NT_SUCCESS STATUS_INVALID_PARAMETER = false ∧
    STATUS_INVALID_PARAMETER ≠ STATUS_SUCCESS := by
  refine ⟨by decide, by decide, by decide⟩

/-- C6: for every device, a get-port-status request stores
`USBD_PORT_ENABLED | USBD_PORT_CONNECTED` (the value 3) in the status word and
is completed once with `STATUS_SUCCESS`; a reset-port request and a
submit-idle-notification request are each completed once with `STATUS_SUCCESS`
(a success code, not pending); none of the three changes the device, the URB or
sends a report. -/
theorem port_requests_succeed (XUSB_BLOB_07_OFFSET : Nat)
    (usbPdo : UsbPdo) (hDevice : DEVICE) (Request : Nat) (irp : IRP) :
    Pdo_EvtIoInternalDeviceControl XUSB_BLOB_07_OFFSET usbPdo hDevice Request irp
        IOCTL_INTERNAL_USB_GET_PORT_STATUS =
      { status := STATUS_SUCCESS
        Urb := irp.Urb
        Device := hDevice
        PortStatus := USBD_PORT_ENABLED ||| USBD_PORT_CONNECTED
        Reports := []
        Completed := [STATUS_SUCCESS] } ∧
    USBD_PORT_ENABLED ||| USBD_PORT_CONNECTED = 3 ∧
    Pdo_EvtIoInternalDeviceControl XUSB_BLOB_07_OFFSET usbPdo hDevice Request irp
        IOCTL_INTERNAL_USB_RESET_PORT =
      { status := STATUS_SUCCESS
        Urb := irp.Urb
        Device := hDevice
        PortStatus := irp.PortStatus
        Reports := []
        Completed := [STATUS_SUCCESS] } ∧
    Pdo_EvtIoInternalDeviceControl XUSB_BLOB_07_OFFSET usbPdo hDevice Request irp
        IOCTL_INTERNAL_USB_SUBMIT_IDLE_NOTIFICATION =
      { status := STATUS_SUCCESS
        Urb := irp.Urb
        Device := hDevice
        PortStatus := irp.PortStatus
        Reports := []
        Completed := [STATUS_SUCCESS] } ∧
    NT_SUCCESS STATUS_SUCCESS = true ∧
    STATUS_SUCCESS ≠ STATUS_PENDING := by
  refine ⟨?_, by decide, ?_, ?_, by decide, by decide⟩ <;>
    simp [Pdo_EvtIoInternalDeviceControl, dispatchSwitch, IOCTL_INTERNAL_USB_SUBMIT_URB,
      IOCTL_INTERNAL_USB_GET_PORT_STATUS, IOCTL_INTERNAL_USB_RESET_PORT,
      IOCTL_INTERNAL_USB_SUBMIT_IDLE_NOTIFICATION, STATUS_SUCCESS, STATUS_PENDING]

/-! ## Theorems: single completion -/

/-- Both branches of a conditional leave the same completions. -/
theorem ite_Completed {c : Prop} [Decidable c] (a b : DISPATCH_STATE)
    (x : List NTSTATUS) (ha : a.Completed = x) (hb : b.Completed = x) :
    (if c then a else b).Completed = x := by
  split <;> assumption

/-- The URB function switch makes no call of `WdfRequestComplete`. -/
theorem submitUrb_Completed (XUSB_BLOB_07_OFFSET : Nat) (usbPdo : UsbPdo)
    (Request : Nat) (s : DISPATCH_STATE) :
    (submitUrb XUSB_BLOB_07_OFFSET usbPdo Request s).Completed = s.Completed := by
  unfold submitUrb DISPATCH_STATE.call
  repeat' first
    | rfl
    | apply ite_Completed

/-- The I/O control code switch makes no call of `WdfRequestComplete`. -/
theorem dispatchSwitch_Completed (XUSB_BLOB_07_OFFSET : Nat) (usbPdo : UsbPdo)
    (Request IoControlCode : Nat) (s : DISPATCH_STATE) :
    (dispatchSwitch XUSB_BLOB_07_OFFSET usbPdo Request IoControlCode s).Completed =
      s.Completed := by
  unfold dispatchSwitch
  split_ifs
  · exact submitUrb_Completed XUSB_BLOB_07_OFFSET usbPdo Request s
  all_goals rfl

/-- The final value of `status` is the one the switch leaves. -/
theorem dispatch_status (XUSB_BLOB_07_OFFSET : Nat) (usbPdo : UsbPdo)
    (hDevice : DEVICE) (Request : Nat) (irp : IRP) (IoControlCode : Nat) :
    (Pdo_EvtIoInternalDeviceControl XUSB_BLOB_07_OFFSET usbPdo hDevice Request irp
        IoControlCode).status =
      (dispatchSwitch XUSB_BLOB_07_OFFSET usbPdo Request IoControlCode
        (dispatchStart hDevice irp)).status := by
  unfold Pdo_EvtIoInternalDeviceControl dispatchStart
  dsimp only
  split_ifs <;> rfl

/-- The completions of the dispatcher, from the final value of `status`. -/
theorem dispatch_Completed (XUSB_BLOB_07_OFFSET : Nat) (usbPdo : UsbPdo)
    (hDevice : DEVICE) (Request : Nat) (irp : IRP) (IoControlCode : Nat) :
    (Pdo_EvtIoInternalDeviceControl XUSB_BLOB_07_OFFSET usbPdo hDevice Request irp
        IoControlCode).Completed =
      if (dispatchSwitch XUSB_BLOB_07_OFFSET usbPdo Request IoControlCode
          (dispatchStart hDevice irp)).status = STATUS_PENDING then []
      else [(dispatchSwitch XUSB_BLOB_07_OFFSET usbPdo Request IoControlCode
          (dispatchStart hDevice irp)).status] := by
  have hc := dispatchSwitch_Completed XUSB_BLOB_07_OFFSET usbPdo Request IoControlCode
    (dispatchStart hDevice irp)
  unfold Pdo_EvtIoInternalDeviceControl
  unfold dispatchStart at hc ⊢
  dsimp only at hc ⊢
  by_cases hp : (dispatchSwitch XUSB_BLOB_07_OFFSET usbPdo Request IoControlCode
      { status := STATUS_INVALID_PARAMETER
        Urb := irp.Urb
        Device := hDevice
        PortStatus := irp.PortStatus
        Reports := []
        Completed := [] }).status = STATUS_PENDING
  · rw [if_neg (not_not.mpr hp), if_pos hp]
    exact hc
  · rw [if_pos hp, if_neg hp]
    simp [hc]

/-- C7: for every I/O control code, URB, device and delegated routines, the
dispatcher completes the request exactly once, with the final value of
`status`, when that value is not `STATUS_PENDING`, and does not complete it
when that value is `STATUS_PENDING`; it never completes a request twice.  For a
bulk or interrupt transfer the final value is the status the delegated routine
returned. -/
theorem request_completed_once_unless_pending (XUSB_BLOB_07_OFFSET : Nat)
    (usbPdo : UsbPdo) (hDevice : DEVICE) (Request : Nat) (irp : IRP)
    (IoControlCode : Nat) :
    ((Pdo_EvtIoInternalDeviceControl XUSB_BLOB_07_OFFSET usbPdo hDevice Request irp
        IoControlCode).status ≠ STATUS_PENDING →
      (Pdo_EvtIoInternalDeviceControl XUSB_BLOB_07_OFFSET usbPdo hDevice Request irp
        IoControlCode).Completed =
        [(Pdo_EvtIoInternalDeviceControl XUSB_BLOB_07_OFFSET usbPdo hDevice Request irp
          IoControlCode).status]) ∧
    ((Pdo_EvtIoInternalDeviceControl XUSB_BLOB_07_OFFSET usbPdo hDevice Request irp
        IoControlCode).status = STATUS_PENDING →
      (Pdo_EvtIoInternalDeviceControl XUSB_BLOB_07_OFFSET usbPdo hDevice Request irp
        IoControlCode).Completed = []) ∧
    (Pdo_EvtIoInternalDeviceControl XUSB_BLOB_07_OFFSET usbPdo hDevice Request irp
        IoControlCode).Completed.length ≤ 1 ∧
    (IoControlCode = IOCTL_INTERNAL_USB_SUBMIT_URB →
      irp.Urb.Function = URB_FUNCTION_BULK_OR_INTERRUPT_TRANSFER →
      (Pdo_EvtIoInternalDeviceControl XUSB_BLOB_07_OFFSET usbPdo hDevice Request irp
        IoControlCode).status =
        (usbPdo.BulkOrInterruptTransfer Request irp.Urb hDevice).1) := by
  rw [dispatch_status, dispatch_Completed]
  refine ⟨?_, ?_, ?_, ?_⟩
  · intro h
    rw [if_neg h]
  · intro h
    rw [if_pos h]
  · split_ifs <;> simp
  · intro hio hf
    subst hio
    simp [dispatchSwitch, submitUrb, dispatchStart, hf, DISPATCH_STATE.call,
      URB_FUNCTION_BULK_OR_INTERRUPT_TRANSFER, URB_FUNCTION_CONTROL_TRANSFER,
      URB_FUNCTION_CONTROL_TRANSFER_EX]

/-- Witness for C7: a bulk transfer whose delegated routine returns
`STATUS_PENDING` is not completed by the dispatcher, and one whose routine
returns `STATUS_SUCCESS` is completed once with `STATUS_SUCCESS`. -/
theorem request_completed_once_unless_pending_witness :
    (Pdo_EvtIoInternalDeviceControl 0x26 (sampleUsbPdo STATUS_PENDING)
        (sampleDevice VIGEM_TARGET_TYPE.Xbox360Wired) 1
        (sampleIrp (sampleUrb URB_FUNCTION_BULK_OR_INTERRUPT_TRANSFER 0 0))
        IOCTL_INTERNAL_USB_SUBMIT_URB).Completed = [] ∧
    (Pdo_EvtIoInternalDeviceControl 0x26 (sampleUsbPdo STATUS_SUCCESS)
        (sampleDevice VIGEM_TARGET_TYPE.Xbox360Wired) 1
        (sampleIrp (sampleUrb URB_FUNCTION_BULK_OR_INTERRUPT_TRANSFER 0 0))
        IOCTL_INTERNAL_USB_SUBMIT_URB).Completed = [STATUS_SUCCESS] :=
  ⟨(request_completed_once_unless_pending 0x26 (sampleUsbPdo STATUS_PENDING)
      (sampleDevice VIGEM_TARGET_TYPE.Xbox360Wired) 1
      (sampleIrp (sampleUrb URB_FUNCTION_BULK_OR_INTERRUPT_TRANSFER 0 0))
      IOCTL_INTERNAL_USB_SUBMIT_URB).2.1 (by decide),
   (request_completed_once_unless_pending 0x26 (sampleUsbPdo STATUS_SUCCESS)
      (sampleDevice VIGEM_TARGET_TYPE.Xbox360Wired) 1
      (sampleIrp (sampleUrb URB_FUNCTION_BULK_OR_INTERRUPT_TRANSFER 0 0))
      IOCTL_INTERNAL_USB_SUBMIT_URB).1 (by decide)⟩

/-! ## Theorems: device creation -/

/-- The reports of two call sequences in a row. -/
theorem createReports_append (xs ys : List CREATE_CALL) :
    createReports (xs ++ ys) = createReports xs ++ createReports ys := by
  induction xs with
  | nil => rfl
  | cons x xs ih => cases x <;> simp [createReports, ih]

/-- A fallible call that is not a report, before a rest without reports. -/
theorem createReports_fallible (call : CREATE_CALL) (status : NTSTATUS)
    (rest : NTSTATUS × List CREATE_CALL) (hcall : createReports [call] = [])
    (hrest : createReports rest.2 = []) :
    createReports (fallible call status rest).2 = [] := by
  unfold fallible
  split
  · have := createReports_append [call] rest.2
    simp only [List.singleton_append] at this
    simp [this, hcall, hrest]
  · exact hcall

/-- An infallible call that is not a report, before a rest without reports. -/
theorem createReports_infallible (call : CREATE_CALL)
    (rest : NTSTATUS × List CREATE_CALL) (hcall : createReports [call] = [])
    (hrest : createReports rest.2 = []) :
    createReports (infallible call rest).2 = [] := by
  unfold infallible
  have := createReports_append [call] rest.2
  simp only [List.singleton_append] at this
  simp [this, hcall, hrest]

/-- No report is sent while the queues are created. -/
theorem createReports_createQueues (r : CREATE_RESULTS)
    (d : PDO_IDENTIFICATION_DESCRIPTION) : createReports (createQueues r d).2 = [] := by
  unfold createQueues
  repeat' first
    | rfl
    | apply createReports_fallible

/-- No report is sent while the interface is exposed and the contexts are set. -/
theorem createReports_exposeAndSetContexts (r : CREATE_RESULTS)
    (d : PDO_IDENTIFICATION_DESCRIPTION) :
    createReports (exposeAndSetContexts r d).2 = [] := by
  unfold exposeAndSetContexts
  apply createReports_fallible _ _ _ (by rfl)
  apply createReports_infallible _ _ (by rfl)
  split
  all_goals first
    | exact createReports_createQueues r d
    | exact createReports_fallible _ _ _ (by rfl) (createReports_createQueues r d)

/-- No report is sent while the ids are assigned and the device is created. -/
theorem createReports_assignIdsAndCreate (r : CREATE_RESULTS)
    (d : PDO_IDENTIFICATION_DESCRIPTION) :
    createReports (assignIdsAndCreate r d).2 = [] := by
  unfold assignIdsAndCreate
  apply createReports_fallible _ _ _ (by rfl)
  apply createReports_fallible _ _ _ (by rfl)
  apply createReports_fallible _ _ _ (by rfl)
  apply createReports_fallible _ _ _ (by rfl)
  apply createReports_fallible _ _ _ (by rfl)
  split
  all_goals first
    | exact createReports_exposeAndSetContexts r d
    | exact createReports_fallible _ _ _ (by rfl) (createReports_exposeAndSetContexts r d)

/-- No report is sent before the label `endCreatePdo`. -/
theorem createReports_createPdoBody (r : CREATE_RESULTS)
    (d : PDO_IDENTIFICATION_DESCRIPTION) :
    createReports (createPdoBody r d).2 = [] := by
  unfold createPdoBody
  apply createReports_fallible _ _ _ (by rfl)
  apply createReports_fallible _ _ _ (by rfl)
  split
  all_goals first
    | rfl
    | exact createReports_fallible _ _ _ (by rfl) (createReports_assignIdsAndCreate r d)

/-- C8, as the code has it: when the interface query succeeds, `Bus_CreatePdo`
sends exactly one "device create" report, whichever later step fails or none;
the report is its last call and carries the serial number of the description
and the status the function returns.  When the interface query fails, the
function returns the status of the query at once and sends no report. -/
theorem create_stage_report (r : CREATE_RESULTS)
    (Description : PDO_IDENTIFICATION_DESCRIPTION) :
    createReports (Bus_CreatePdo r Description).2 =
      (if NT_SUCCESS r.WdfFdoQueryForInterface = true then
        [{ Stage := VIGEM_PDO_STAGE.ViGEmPdoCreate
           SerialNo := Description.SerialNo
           Status := (Bus_CreatePdo r Description).1 }]
      else []) ∧
    (Bus_CreatePdo r Description).2.getLast? =
      some (if NT_SUCCESS r.WdfFdoQueryForInterface = true then
        CREATE_CALL.BUS_PDO_REPORT_STAGE_RESULT
          { Stage := VIGEM_PDO_STAGE.ViGEmPdoCreate
            SerialNo := Description.SerialNo
            Status := (Bus_CreatePdo r Description).1 }
      else CREATE_CALL.WdfFdoQueryForInterface) ∧
    (Bus_CreatePdo r Description).1 =
      (if NT_SUCCESS r.WdfFdoQueryForInterface = true then
        (createPdoBody r Description).1
      else r.WdfFdoQueryForInterface) := by
  unfold Bus_CreatePdo
  by_cases hq : NT_SUCCESS r.WdfFdoQueryForInterface = true
  · rw [if_pos hq, if_pos hq, if_pos hq, if_pos hq]
    refine ⟨?_, ?_, rfl⟩
    · have h1 := createReports_append
        (CREATE_CALL.WdfFdoQueryForInterface :: (createPdoBody r Description).2)
        [CREATE_CALL.BUS_PDO_REPORT_STAGE_RESULT
          { Stage := VIGEM_PDO_STAGE.ViGEmPdoCreate
            SerialNo := Description.SerialNo
            Status := (createPdoBody r Description).1 }]
      have h2 := createReports_append [CREATE_CALL.WdfFdoQueryForInterface]
        (createPdoBody r Description).2
      simp only [List.singleton_append] at h2
      rw [h1, h2, createReports_createPdoBody]
      rfl
    · exact List.getLast?_concat
        (CREATE_CALL.WdfFdoQueryForInterface :: (createPdoBody r Description).2)
  · rw [if_neg hq, if_neg hq, if_neg hq, if_neg hq]
    exact ⟨rfl, rfl, rfl⟩

/-- Counterexample to C8 as stated: when `WdfFdoQueryForInterface` returns
`STATUS_UNSUCCESSFUL`, `Bus_CreatePdo` for an Xbox 360 device with serial 7
makes that one call, returns `STATUS_UNSUCCESSFUL` and sends no report. -/
theorem create_without_interface_sends_no_report :
    Bus_CreatePdo (sampleResults STATUS_UNSUCCESSFUL)
        (sampleDescription 7 VIGEM_TARGET_TYPE.Xbox360Wired) =
      (STATUS_UNSUCCESSFUL, [CREATE_CALL.WdfFdoQueryForInterface]) ∧
    createReports (Bus_CreatePdo (sampleResults STATUS_UNSUCCESSFUL)
        (sampleDescription 7 VIGEM_TARGET_TYPE.Xbox360Wired)).2 = [] ∧
    (createReports (Bus_CreatePdo (sampleResults STATUS_UNSUCCESSFUL)
        (sampleDescription 7 VIGEM_TARGET_TYPE.Xbox360Wired)).2).length ≠ 1 := by
  refine ⟨by decide, by decide, by decide⟩

/-! ## Theorems: the instance id -/

/-- A property of every call of a fallible step followed by a rest. -/
theorem fallible_forall (P : CREATE_CALL → Prop) (call : CREATE_CALL)
    (status : NTSTATUS) (rest : NTSTATUS × List CREATE_CALL) (hcall : P call)
    (hrest : ∀ c ∈ rest.2, P c) : ∀ c ∈ (fallible call status rest).2, P c := by
  unfold fallible
  split
  · intro c hc
    rcases List.mem_cons.mp hc with h | h
    · exact h ▸ hcall
    · exact hrest c h
  · intro c hc
    rcases List.mem_cons.mp hc with h | h
    · exact h ▸ hcall
    · cases h

/-- A property of every call of an infallible step followed by a rest. -/
theorem infallible_forall (P : CREATE_CALL → Prop) (call : CREATE_CALL)
    (rest : NTSTATUS × List CREATE_CALL) (hcall : P call)
    (hrest : ∀ c ∈ rest.2, P c) : ∀ c ∈ (infallible call rest).2, P c := by
  unfold infallible
  intro c hc
  rcases List.mem_cons.mp hc with h | h
  · exact h ▸ hcall
  · exact hrest c h

/-- No instance id is assigned while the queues are created. -/
theorem createQueues_instance_id (r : CREATE_RESULTS)
    (d : PDO_IDENTIFICATION_DESCRIPTION) (id : String) :
    ∀ c ∈ (createQueues r d).2, assignsNoneOr id c := by
  unfold createQueues
  apply fallible_forall (assignsNoneOr id) _ _ _ (Or.inl (by rfl))
  apply fallible_forall (assignsNoneOr id) _ _ _ (Or.inl (by rfl))
  apply fallible_forall (assignsNoneOr id) _ _ _ (Or.inl (by rfl))
  apply infallible_forall (assignsNoneOr id) _ _ (Or.inl (by rfl))
  apply infallible_forall (assignsNoneOr id) _ _ (Or.inl (by rfl))
  intro c hc
  cases hc

/-- No instance id is assigned while the interface is exposed and the contexts
are set. -/
theorem exposeAndSetContexts_instance_id (r : CREATE_RESULTS)
    (d : PDO_IDENTIFICATION_DESCRIPTION) (id : String) :
    ∀ c ∈ (exposeAndSetContexts r d).2, assignsNoneOr id c := by
  unfold exposeAndSetContexts
  apply fallible_forall (assignsNoneOr id) _ _ _ (Or.inl (by rfl))
  apply infallible_forall (assignsNoneOr id) _ _ (Or.inl (by rfl))
  split
  all_goals first
    | exact createQueues_instance_id r d id
    | exact fallible_forall (assignsNoneOr id) _ _ _ (Or.inl (by rfl))
        (createQueues_instance_id r d id)

/-- The one instance id assigned between `WdfPdoInitAssignDeviceID` and the end
of the body is the formatted serial number. -/
theorem assignIdsAndCreate_instance_id (r : CREATE_RESULTS)
    (d : PDO_IDENTIFICATION_DESCRIPTION) :
    ∀ c ∈ (assignIdsAndCreate r d).2, assignsNoneOr (instanceId d.SerialNo) c := by
  unfold assignIdsAndCreate
  apply fallible_forall (assignsNoneOr (instanceId d.SerialNo)) _ _ _ (Or.inl (by rfl))
  apply fallible_forall (assignsNoneOr (instanceId d.SerialNo)) _ _ _ (Or.inl (by rfl))
  apply fallible_forall (assignsNoneOr (instanceId d.SerialNo)) _ _ _ (Or.inr (by rfl))
  apply fallible_forall (assignsNoneOr (instanceId d.SerialNo)) _ _ _ (Or.inl (by rfl))
  apply fallible_forall (assignsNoneOr (instanceId d.SerialNo)) _ _ _ (Or.inl (by rfl))
  split
  all_goals first
    | exact exposeAndSetContexts_instance_id r d _
    | exact fallible_forall (assignsNoneOr (instanceId d.SerialNo)) _ _ _ (Or.inl (by rfl))
        (exposeAndSetContexts_instance_id r d _)

/-- Every instance id assigned before the label `endCreatePdo` is the formatted
serial number. -/
theorem createPdoBody_instance_id (r : CREATE_RESULTS)
    (d : PDO_IDENTIFICATION_DESCRIPTION) :
    ∀ c ∈ (createPdoBody r d).2, assignsNoneOr (instanceId d.SerialNo) c := by
  unfold createPdoBody
  apply fallible_forall (assignsNoneOr (instanceId d.SerialNo)) _ _ _ (Or.inl (by rfl))
  apply fallible_forall (assignsNoneOr (instanceId d.SerialNo)) _ _ _ (Or.inl (by rfl))
  split
  · exact fallible_forall (assignsNoneOr (instanceId d.SerialNo)) _ _ _ (Or.inl (by rfl))
      (assignIdsAndCreate_instance_id r d)
  · exact fallible_forall (assignsNoneOr (instanceId d.SerialNo)) _ _ _ (Or.inl (by rfl))
      (assignIdsAndCreate_instance_id r d)
  · exact fallible_forall (assignsNoneOr (instanceId d.SerialNo)) _ _ _ (Or.inl (by rfl))
      (assignIdsAndCreate_instance_id r d)
  · intro c hc
    cases hc

/-- Every instance id `Bus_CreatePdo` assigns is the formatted serial number. -/
theorem Bus_CreatePdo_instance_id (r : CREATE_RESULTS)
    (d : PDO_IDENTIFICATION_DESCRIPTION) (buffer : String)
    (h : CREATE_CALL.WdfPdoInitAssignInstanceID buffer ∈ (Bus_CreatePdo r d).2) :
    buffer = instanceId d.SerialNo := by
  unfold Bus_CreatePdo at h
  split at h
  · simp only [List.cons_append, List.mem_cons, List.mem_append, List.mem_singleton,
      reduceCtorEq, false_or, or_false, List.not_mem_nil] at h
    rcases createPdoBody_instance_id r d _ h with h1 | h1
    · cases h1
    · exact Option.some.inj h1
  · simp at h

/-- Digit characters are decimal digits. -/
theorem digitChar_isDigit (d : Nat) (h : d < 10) : (Nat.digitChar d).isDigit = true := by
  interval_cases d <;> rfl

/-- The value of a digit character. -/
theorem digitChar_value (d : Nat) (h : d < 10) : (Nat.digitChar d).toNat - 48 = d := by
  interval_cases d <;> rfl

/-- With fuel left, at least one digit is produced. -/
theorem decimalRev_length_pos (fuel n : Nat) : 0 < (decimalRev (fuel + 1) n).length := by
  rw [decimalRev]
  split <;> simp

/-- The conversion of a value below 100: tens digit, units digit. -/
theorem format_02d_small (s : Nat) (h : s < 100) :
    format_02d s = [Nat.digitChar (s / 10), Nat.digitChar (s % 10)] := by
  have h32 : s % 2 ^ 32 = s := Nat.mod_eq_of_lt (by omega)
  have h31 : s < 2 ^ 31 := by omega
  unfold format_02d
  simp only [h32, h31, if_true]
  by_cases h10 : s < 10
  · have hd : decimalDigits s = [Nat.digitChar s] := by
      simp [decimalDigits, decimalRev, h10]
    have h0 : s / 10 = 0 := by omega
    have h1 : s % 10 = s := by omega
    rw [hd, h0, h1]
    rfl
  · have hq : s / 10 < 10 := by omega
    have hd : decimalDigits s = [Nat.digitChar (s / 10), Nat.digitChar (s % 10)] := by
      simp [decimalDigits, decimalRev, h10, hq]
    rw [hd]
    rfl

/-- The conversion of a non-negative value of 100 or more has three characters
or more. -/
theorem format_02d_large_length (s : Nat) (h100 : 100 ≤ s) (h31 : s < 2 ^ 31) :
    3 ≤ (format_02d s).length := by
  have h32 : s % 2 ^ 32 = s := Nat.mod_eq_of_lt (by omega)
  unfold format_02d
  simp only [h32, h31, if_true]
  have h10 : ¬ s < 10 := by omega
  have hq : ¬ s / 10 < 10 := by omega
  have hpos : 0 < (decimalRev 8 (s / 10 / 10)).length :=
    decimalRev_length_pos 7 (s / 10 / 10)
  have hd : (decimalDigits s).length = (decimalRev 8 (s / 10 / 10)).length + 2 := by
    simp [decimalDigits, decimalRev, h10, hq]
  simp only [List.length_append, List.length_replicate, hd]
  omega

/-- The conversion of a value with the top bit set starts with a minus sign. -/
theorem format_02d_negative_head (s : Nat) (h31 : 2 ^ 31 ≤ s) (h32 : s < 2 ^ 32) :
    ∃ cs, format_02d s = '-' :: cs := by
  have hm : s % 2 ^ 32 = s := Nat.mod_eq_of_lt h32
  have hn : ¬ s < 2 ^ 31 := by omega
  unfold format_02d
  simp only [hm, hn, if_false]
  exact ⟨_, rfl⟩

/-- C9, as the code has it: for a 32-bit serial number, the instance id is a
string of exactly two decimal digit characters if and only if the serial number
is below 100; in that case it is the tens digit followed by the units digit
(zero-padded on the left) and its numeric value is the serial number.  Serial 7
yields "07".  Every instance id that a run of `Bus_CreatePdo` assigns is this
string. -/
theorem instance_id_two_digits_iff (SerialNo : Nat) (h32 : SerialNo < 2 ^ 32) :
    (((instanceId SerialNo).length = 2 ∧
        ∀ c ∈ (instanceId SerialNo).data, c.isDigit = true) ↔ SerialNo < 100) ∧
    (SerialNo < 100 →
      instanceId SerialNo =
          String.mk [Nat.digitChar (SerialNo / 10), Nat.digitChar (SerialNo % 10)] ∧
        decimalValue (instanceId SerialNo).data = SerialNo) ∧
    instanceId 7 = "07" ∧
    (∀ (r : CREATE_RESULTS) (d : PDO_IDENTIFICATION_DESCRIPTION) (buffer : String),
      d.SerialNo = SerialNo →
      CREATE_CALL.WdfPdoInitAssignInstanceID buffer ∈ (Bus_CreatePdo r d).2 →
      buffer = instanceId SerialNo) := by
  have hsmall : SerialNo < 100 →
      instanceId SerialNo =
          String.mk [Nat.digitChar (SerialNo / 10), Nat.digitChar (SerialNo % 10)] ∧
        decimalValue (instanceId SerialNo).data = SerialNo := by
    intro h
    have hf := format_02d_small SerialNo h
    refine ⟨by rw [instanceId, hf], ?_⟩
    show decimalValue (format_02d SerialNo) = SerialNo
    rw [hf]
    simp only [decimalValue, List.foldl_cons, List.foldl_nil]
    rw [digitChar_value _ (by omega : SerialNo / 10 < 10),
      digitChar_value _ (by omega : SerialNo % 10 < 10)]
    omega
  refine ⟨⟨?_, ?_⟩, hsmall, by decide,
    fun r d buffer hd hb => hd ▸ Bus_CreatePdo_instance_id r d buffer hb⟩
  · rintro ⟨hlen, hdig⟩
    by_contra hge
    have hlen2 : (format_02d SerialNo).length = 2 := hlen
    by_cases h31 : SerialNo < 2 ^ 31
    · have := format_02d_large_length SerialNo (by omega) h31
      omega
    · obtain ⟨cs, hcs⟩ := format_02d_negative_head SerialNo (by omega) h32
      have hmem : '-' ∈ (instanceId SerialNo).data := by
        show '-' ∈ format_02d SerialNo
        rw [hcs]
        exact List.mem_cons_self _ _
      have := hdig '-' hmem
      exact absurd this (by decide)
  · intro h
    have hf := format_02d_small SerialNo h
    refine ⟨?_, ?_⟩
    · show (format_02d SerialNo).length = 2
      rw [hf]
      rfl
    · intro c hc
      have hc2 : c ∈ format_02d SerialNo := hc
      rw [hf] at hc2
      simp only [List.mem_cons, List.mem_singleton, List.not_mem_nil, or_false] at hc2
      rcases hc2 with rfl | rfl
      · exact digitChar_isDigit _ (by omega)
      · exact digitChar_isDigit _ (by omega)

/-- Witness for C9 as amended: serial 42 yields "42", whose value is 42, and the
run of `Bus_CreatePdo` in which every call succeeds assigns it. -/
theorem instance_id_two_digits_iff_witness :
    (instanceId 42 = "42" ∧ decimalValue (instanceId 42).data = 42) ∧
    CREATE_CALL.WdfPdoInitAssignInstanceID "42" ∈
      (Bus_CreatePdo (sampleResults STATUS_SUCCESS)
        (sampleDescription 42 VIGEM_TARGET_TYPE.Xbox360Wired)).2 :=
  ⟨(instance_id_two_digits_iff 42 (by decide)).2.1 (by decide), by decide⟩

/-- Counterexample to C9 as stated: serial 100 yields the three characters
"100", and serial 4294967295 yields "-1", which is not two decimal digits. -/
theorem instance_id_serial_100_three_characters :
    instanceId 100 = "100" ∧ (instanceId 100).length = 3 ∧
    (instanceId 100).length ≠ 2 ∧ instanceId 4294967295 = "-1" := by
  refine ⟨by decide, by decide, by decide, by decide⟩

/-! ## Theorems: identity comparison -/

/-- C10: `Bus_EvtChildListIdentificationDescriptionCompare` returns TRUE if and
only if the two serial numbers are equal; replacing the target family, owner
process id, vendor id and product id of either description never changes the
result; the comparison is reflexive, symmetric and transitive. -/
theorem compare_iff_serial_equal (lhs rhs : PDO_IDENTIFICATION_DESCRIPTION) :
    (Bus_EvtChildListIdentificationDescriptionCompare lhs rhs = true ↔
      lhs.SerialNo = rhs.SerialNo) ∧
    (∀ (t1 t2 : VIGEM_TARGET_TYPE) (o1 o2 v1 v2 p1 p2 : Nat),
      Bus_EvtChildListIdentificationDescriptionCompare
          { lhs with TargetType := t1, OwnerProcessId := o1, VendorId := v1,
                     ProductId := p1 }
          { rhs with TargetType := t2, OwnerProcessId := o2, VendorId := v2,
                     ProductId := p2 } =
        Bus_EvtChildListIdentificationDescriptionCompare lhs rhs) ∧
    Bus_EvtChildListIdentificationDescriptionCompare lhs lhs = true ∧
    Bus_EvtChildListIdentificationDescriptionCompare lhs rhs =
      Bus_EvtChildListIdentificationDescriptionCompare rhs lhs ∧
    (∀ mid : PDO_IDENTIFICATION_DESCRIPTION,
      Bus_EvtChildListIdentificationDescriptionCompare lhs mid = true →
      Bus_EvtChildListIdentificationDescriptionCompare mid rhs = true →
      Bus_EvtChildListIdentificationDescriptionCompare lhs rhs = true) := by
  refine ⟨?_, ?_, ?_, ?_, ?_⟩
  · simp [Bus_EvtChildListIdentificationDescriptionCompare]
  · intro t1 t2 o1 o2 v1 v2 p1 p2
    rfl
  · simp [Bus_EvtChildListIdentificationDescriptionCompare]
  · simp only [Bus_EvtChildListIdentificationDescriptionCompare]
    by_cases h : lhs.SerialNo = rhs.SerialNo
    · rw [if_pos h, if_pos h.symm]
    · rw [if_neg h, if_neg (fun h2 => h h2.symm)]
  · intro mid h1 h2
    simp only [Bus_EvtChildListIdentificationDescriptionCompare, ite_eq_left_iff,
      Bool.false_eq_true, imp_false, not_not] at h1 h2 ⊢
    exact h1.trans h2

/-- Witness for C10: two descriptions with serial 7 that differ in every other
field compare equal, and a description with serial 8 does not. -/
theorem compare_iff_serial_equal_witness :
    Bus_EvtChildListIdentificationDescriptionCompare
        (sampleDescription 7 VIGEM_TARGET_TYPE.Xbox360Wired)
        { SerialNo := 7, TargetType := VIGEM_TARGET_TYPE.DualShock4Wired,
          OwnerProcessId := 1, VendorId := 0x054C, ProductId := 0x05C4 } = true ∧
    ¬ Bus_EvtChildListIdentificationDescriptionCompare
        (sampleDescription 7 VIGEM_TARGET_TYPE.Xbox360Wired)
        (sampleDescription 8 VIGEM_TARGET_TYPE.Xbox360Wired) = true :=
  ⟨(compare_iff_serial_equal (sampleDescription 7 VIGEM_TARGET_TYPE.Xbox360Wired)
      { SerialNo := 7, TargetType := VIGEM_TARGET_TYPE.DualShock4Wired,
        OwnerProcessId := 1, VendorId := 0x054C, ProductId := 0x05C4 }).1.mpr rfl,
   fun h => absurd
    ((compare_iff_serial_equal (sampleDescription 7 VIGEM_TARGET_TYPE.Xbox360Wired)
      (sampleDescription 8 VIGEM_TARGET_TYPE.Xbox360Wired)).1.mp h) (by decide)⟩

/-! ## Theorems: power-up -/

/-- C11: for a device of each of the three families and every status the
family's hardware-preparation hook returns, `Pdo_EvtDevicePrepareHardware`
makes exactly two calls, first that family's hook and then one "prepare
hardware" stage report carrying the device's serial number and the status of
the hook, and it returns that status; nothing depends on the status being a
success or a failure. -/
theorem prepare_hardware_hook_then_report (r : PREPARE_RESULTS)
    (pdoData : PDO_DEVICE_DATA) :
    (pdoData.TargetType = VIGEM_TARGET_TYPE.Xbox360Wired →
      Pdo_EvtDevicePrepareHardware r pdoData =
        (r.Xusb_PrepareHardware,
          [PREPARE_CALL.Xusb_PrepareHardware,
            PREPARE_CALL.BUS_PDO_REPORT_STAGE_RESULT
              { Stage := VIGEM_PDO_STAGE.ViGEmPdoPrepareHardware
                SerialNo := pdoData.SerialNo
                Status := r.Xusb_PrepareHardware }])) ∧
    (pdoData.TargetType = VIGEM_TARGET_TYPE.DualShock4Wired →
      Pdo_EvtDevicePrepareHardware r pdoData =
        (r.Ds4_PrepareHardware,
          [PREPARE_CALL.Ds4_PrepareHardware,
            PREPARE_CALL.BUS_PDO_REPORT_STAGE_RESULT
              { Stage := VIGEM_PDO_STAGE.ViGEmPdoPrepareHardware
                SerialNo := pdoData.SerialNo
                Status := r.Ds4_PrepareHardware }])) ∧
    (pdoData.TargetType = VIGEM_TARGET_TYPE.XboxOneWired →
      Pdo_EvtDevicePrepareHardware r pdoData =
        (r.Xgip_PrepareHardware,
          [PREPARE_CALL.Xgip_PrepareHardware,
            PREPARE_CALL.BUS_PDO_REPORT_STAGE_RESULT
              { Stage := VIGEM_PDO_STAGE.ViGEmPdoPrepareHardware
                SerialNo := pdoData.SerialNo
                Status := r.Xgip_PrepareHardware }])) := by
  refine ⟨?_, ?_, ?_⟩ <;>
    · intro h
      simp [Pdo_EvtDevicePrepareHardware, h]

/-- Witness for C11: a DualShock 4 device with serial 7 whose hook fails with
`STATUS_UNSUCCESSFUL`; the failure is reported and returned. -/
theorem prepare_hardware_hook_then_report_witness :
    Pdo_EvtDevicePrepareHardware (samplePrepareResults STATUS_UNSUCCESSFUL)
        (sampleDevice VIGEM_TARGET_TYPE.DualShock4Wired).pdoData =
      (STATUS_UNSUCCESSFUL,
        [PREPARE_CALL.Ds4_PrepareHardware,
          PREPARE_CALL.BUS_PDO_REPORT_STAGE_RESULT
            { Stage := VIGEM_PDO_STAGE.ViGEmPdoPrepareHardware
              SerialNo := 7
              Status := STATUS_UNSUCCESSFUL }]) :=
  (prepare_hardware_hook_then_report (samplePrepareResults STATUS_UNSUCCESSFUL)
    (sampleDevice VIGEM_TARGET_TYPE.DualShock4Wired).pdoData).2.1 rfl

/-! ## Theorems: get descriptor from interface -/

/-- C12, as the code has it: for a get-descriptor-from-interface URB the final
status, the URB and the device are the ones the delegated routine returns; the
dispatcher then sends one "initialization finished" report, carrying the
serial number of the device and `STATUS_SUCCESS`, if and only if the device is a
DualShock 4, whatever status the routine returned, and sends no report for any
other family; the request is completed with the status of the routine unless
that status is `STATUS_PENDING`.  The family and the serial number are read
from the device context after the routine has returned. -/
theorem descriptor_from_interface_report (XUSB_BLOB_07_OFFSET : Nat)
    (usbPdo : UsbPdo) (hDevice : DEVICE) (Request : Nat) (irp : IRP)
    (hFunction : irp.Urb.Function = URB_FUNCTION_GET_DESCRIPTOR_FROM_INTERFACE) :
    (Pdo_EvtIoInternalDeviceControl XUSB_BLOB_07_OFFSET usbPdo hDevice Request irp
        IOCTL_INTERNAL_USB_SUBMIT_URB).status =
      (usbPdo.GetDescriptorFromInterface irp.Urb hDevice).1 ∧
    (Pdo_EvtIoInternalDeviceControl XUSB_BLOB_07_OFFSET usbPdo hDevice Request irp
        IOCTL_INTERNAL_USB_SUBMIT_URB).Urb =
      (usbPdo.GetDescriptorFromInterface irp.Urb hDevice).2.1 ∧
    (Pdo_EvtIoInternalDeviceControl XUSB_BLOB_07_OFFSET usbPdo hDevice Request irp
        IOCTL_INTERNAL_USB_SUBMIT_URB).Device =
      (usbPdo.GetDescriptorFromInterface irp.Urb hDevice).2.2 ∧
    (Pdo_EvtIoInternalDeviceControl XUSB_BLOB_07_OFFSET usbPdo hDevice Request irp
        IOCTL_INTERNAL_USB_SUBMIT_URB).Reports =
      (if (usbPdo.GetDescriptorFromInterface irp.Urb hDevice).2.2.pdoData.TargetType =
          VIGEM_TARGET_TYPE.DualShock4Wired then
        [{ Stage := VIGEM_PDO_STAGE.ViGEmPdoInitFinished
           SerialNo :=
             (usbPdo.GetDescriptorFromInterface irp.Urb hDevice).2.2.pdoData.SerialNo
           Status := STATUS_SUCCESS }]
      else []) ∧
    (Pdo_EvtIoInternalDeviceControl XUSB_BLOB_07_OFFSET usbPdo hDevice Request irp
        IOCTL_INTERNAL_USB_SUBMIT_URB).Completed =
      (if (usbPdo.GetDescriptorFromInterface irp.Urb hDevice).1 = STATUS_PENDING then []
      else [(usbPdo.GetDescriptorFromInterface irp.Urb hDevice).1]) := by
  have hs :
      dispatchSwitch XUSB_BLOB_07_OFFSET usbPdo Request IOCTL_INTERNAL_USB_SUBMIT_URB
          (dispatchStart hDevice irp) =
        { status := (usbPdo.GetDescriptorFromInterface irp.Urb hDevice).1
          Urb := (usbPdo.GetDescriptorFromInterface irp.Urb hDevice).2.1
          Device := (usbPdo.GetDescriptorFromInterface irp.Urb hDevice).2.2
          PortStatus := irp.PortStatus
          Reports :=
            (if (usbPdo.GetDescriptorFromInterface irp.Urb
                hDevice).2.2.pdoData.TargetType =
                VIGEM_TARGET_TYPE.DualShock4Wired then
              [{ Stage := VIGEM_PDO_STAGE.ViGEmPdoInitFinished
                 SerialNo :=
                   (usbPdo.GetDescriptorFromInterface irp.Urb
                     hDevice).2.2.pdoData.SerialNo
                 Status := STATUS_SUCCESS }]
            else [])
          Completed := [] } := by
    by_cases hd : (usbPdo.GetDescriptorFromInterface irp.Urb
        hDevice).2.2.pdoData.TargetType = VIGEM_TARGET_TYPE.DualShock4Wired
    · simp [dispatchSwitch, submitUrb, dispatchStart, hFunction, DISPATCH_STATE.call,
        URB_FUNCTION_GET_DESCRIPTOR_FROM_INTERFACE, URB_FUNCTION_CONTROL_TRANSFER,
        URB_FUNCTION_CONTROL_TRANSFER_EX, URB_FUNCTION_BULK_OR_INTERRUPT_TRANSFER,
        URB_FUNCTION_SELECT_CONFIGURATION, URB_FUNCTION_SELECT_INTERFACE,
        URB_FUNCTION_GET_DESCRIPTOR_FROM_DEVICE, URB_FUNCTION_GET_STATUS_FROM_DEVICE,
        URB_FUNCTION_ABORT_PIPE, URB_FUNCTION_CLASS_INTERFACE, hd]
    · simp [dispatchSwitch, submitUrb, dispatchStart, hFunction, DISPATCH_STATE.call,
        URB_FUNCTION_GET_DESCRIPTOR_FROM_INTERFACE, URB_FUNCTION_CONTROL_TRANSFER,
        URB_FUNCTION_CONTROL_TRANSFER_EX, URB_FUNCTION_BULK_OR_INTERRUPT_TRANSFER,
        URB_FUNCTION_SELECT_CONFIGURATION, URB_FUNCTION_SELECT_INTERFACE,
        URB_FUNCTION_GET_DESCRIPTOR_FROM_DEVICE, URB_FUNCTION_GET_STATUS_FROM_DEVICE,
        URB_FUNCTION_ABORT_PIPE, URB_FUNCTION_CLASS_INTERFACE, hd]
  have hr :
      Pdo_EvtIoInternalDeviceControl XUSB_BLOB_07_OFFSET usbPdo hDevice Request irp
          IOCTL_INTERNAL_USB_SUBMIT_URB =
        (if (dispatchSwitch XUSB_BLOB_07_OFFSET usbPdo Request
              IOCTL_INTERNAL_USB_SUBMIT_URB (dispatchStart hDevice irp)).status ≠
            STATUS_PENDING then
          { dispatchSwitch XUSB_BLOB_07_OFFSET usbPdo Request
              IOCTL_INTERNAL_USB_SUBMIT_URB (dispatchStart hDevice irp) with
            Completed :=
              (dispatchSwitch XUSB_BLOB_07_OFFSET usbPdo Request
                IOCTL_INTERNAL_USB_SUBMIT_URB (dispatchStart hDevice irp)).Completed ++
              [(dispatchSwitch XUSB_BLOB_07_OFFSET usbPdo Request
                IOCTL_INTERNAL_USB_SUBMIT_URB (dispatchStart hDevice irp)).status] }
        else dispatchSwitch XUSB_BLOB_07_OFFSET usbPdo Request
          IOCTL_INTERNAL_USB_SUBMIT_URB (dispatchStart hDevice irp)) := rfl
  rw [hr, hs]
  by_cases hp : (usbPdo.GetDescriptorFromInterface irp.Urb hDevice).1 = STATUS_PENDING
  · simp [hp]
  · simp [hp]

/-- Witness for C12 as amended: a DualShock 4 device with serial 7 whose
delegated routine succeeds gets one report; the request is completed with
`STATUS_SUCCESS`. -/
theorem descriptor_from_interface_report_witness :
    (Pdo_EvtIoInternalDeviceControl 0x26 (sampleUsbPdo STATUS_SUCCESS)
        (sampleDevice VIGEM_TARGET_TYPE.DualShock4Wired) 1
        (sampleIrp (sampleUrb URB_FUNCTION_GET_DESCRIPTOR_FROM_INTERFACE 0 0))
        IOCTL_INTERNAL_USB_SUBMIT_URB).Reports =
      [{ Stage := VIGEM_PDO_STAGE.ViGEmPdoInitFinished
         SerialNo := 7
         Status := STATUS_SUCCESS }] :=
  (descriptor_from_interface_report 0x26 (sampleUsbPdo STATUS_SUCCESS)
    (sampleDevice VIGEM_TARGET_TYPE.DualShock4Wired) 1
    (sampleIrp (sampleUrb URB_FUNCTION_GET_DESCRIPTOR_FROM_INTERFACE 0 0)) rfl).2.2.2.1

/-- Counterexample to C12 as stated: on a DualShock 4 device whose delegated
routine fails with `STATUS_UNSUCCESSFUL`, the "initialization finished" report
with `STATUS_SUCCESS` is sent all the same, and the request is completed with
`STATUS_UNSUCCESSFUL`; on an Xbox 360 device with the same routine no report is
sent. -/
theorem descriptor_from_interface_failure_still_reported :
    NT_SUCCESS STATUS_UNSUCCESSFUL = false ∧
    (Pdo_EvtIoInternalDeviceControl 0x26 (sampleUsbPdo STATUS_UNSUCCESSFUL)
        (sampleDevice VIGEM_TARGET_TYPE.DualShock4Wired) 1
        (sampleIrp (sampleUrb URB_FUNCTION_GET_DESCRIPTOR_FROM_INTERFACE 0 0))
        IOCTL_INTERNAL_USB_SUBMIT_URB).Completed = [STATUS_UNSUCCESSFUL] ∧
    (Pdo_EvtIoInternalDeviceControl 0x26 (sampleUsbPdo STATUS_UNSUCCESSFUL)
        (sampleDevice VIGEM_TARGET_TYPE.DualShock4Wired) 1
        (sampleIrp (sampleUrb URB_FUNCTION_GET_DESCRIPTOR_FROM_INTERFACE 0 0))
        IOCTL_INTERNAL_USB_SUBMIT_URB).Reports =
      [{ Stage := VIGEM_PDO_STAGE.ViGEmPdoInitFinished
         SerialNo := 7
         Status := STATUS_SUCCESS }] ∧
    (Pdo_EvtIoInternalDeviceControl 0x26 (sampleUsbPdo STATUS_UNSUCCESSFUL)
        (sampleDevice VIGEM_TARGET_TYPE.Xbox360Wired) 1
        (sampleIrp (sampleUrb URB_FUNCTION_GET_DESCRIPTOR_FROM_INTERFACE 0 0))
        IOCTL_INTERNAL_USB_SUBMIT_URB).Reports = [] := by
  refine ⟨by decide, by decide, by decide, by decide⟩

/-! ## Theorems: order of the creation steps -/

/-- The empty rest of a body follows the empty order. -/
theorem runsInOrder_nil (r : CREATE_RESULTS) (status : NTSTATUS) :
    runsInOrder r [] (status, []) := by
  refine ⟨List.prefix_refl _, ?_, Or.inl rfl⟩
  intro c hc
  cases hc

/-- A fallible call in front of a rest that follows its order. -/
theorem runsInOrder_fallible (r : CREATE_RESULTS) (call : CREATE_CALL)
    (status : NTSTATUS) (full : List CREATE_CALL) (rest : NTSTATUS × List CREATE_CALL)
    (hcall : callStatus r call = some status) (hrest : runsInOrder r full rest) :
    runsInOrder r (call :: full) (fallible call status rest) := by
  obtain ⟨hpre, hfail, hstop⟩ := hrest
  unfold fallible
  by_cases hs : NT_SUCCESS status = true
  · rw [if_pos hs]
    refine ⟨List.cons_prefix_cons.mpr ⟨rfl, hpre⟩, ?_, ?_⟩
    · intro c hc st hst hno
      rcases List.mem_cons.mp hc with h | h
      · subst h
        rw [hcall] at hst
        cases hst
        rw [hs] at hno
        cases hno
      · obtain ⟨hl, h1⟩ := hfail c h st hst hno
        refine ⟨?_, h1⟩
        show (call :: rest.2).getLast? = some c
        rw [List.getLast?_cons, hl]
        rfl
    · rcases hstop with h | ⟨c, st, hl, hst, hno⟩
      · exact Or.inl (by rw [h])
      · refine Or.inr ⟨c, st, ?_, hst, hno⟩
        show (call :: rest.2).getLast? = some c
        rw [List.getLast?_cons, hl]
        rfl
  · rw [if_neg hs]
    have hno : NT_SUCCESS status = false := by
      cases hb : NT_SUCCESS status
      · rfl
      · exact absurd hb hs
    refine ⟨List.cons_prefix_cons.mpr ⟨rfl, List.nil_prefix⟩, ?_, ?_⟩
    · intro c hc st hst _
      rcases List.mem_cons.mp hc with h | h
      · subst h
        rw [hcall] at hst
        cases hst
        exact ⟨rfl, rfl⟩
      · cases h
    · exact Or.inr ⟨call, status, rfl, hcall, hno⟩

/-- A call without status in front of a rest that follows its order. -/
theorem runsInOrder_infallible (r : CREATE_RESULTS) (call : CREATE_CALL)
    (full : List CREATE_CALL) (rest : NTSTATUS × List CREATE_CALL)
    (hcall : callStatus r call = none) (hrest : runsInOrder r full rest) :
    runsInOrder r (call :: full) (infallible call rest) := by
  obtain ⟨hpre, hfail, hstop⟩ := hrest
  unfold infallible
  refine ⟨List.cons_prefix_cons.mpr ⟨rfl, hpre⟩, ?_, ?_⟩
  · intro c hc st hst hno
    rcases List.mem_cons.mp hc with h | h
    · subst h
      rw [hcall] at hst
      cases hst
    · obtain ⟨hl, h1⟩ := hfail c h st hst hno
      refine ⟨?_, h1⟩
      show (call :: rest.2).getLast? = some c
      rw [List.getLast?_cons, hl]
      rfl
  · rcases hstop with h | ⟨c, st, hl, hst, hno⟩
    · exact Or.inl (by rw [h])
    · refine Or.inr ⟨c, st, ?_, hst, hno⟩
      show (call :: rest.2).getLast? = some c
      rw [List.getLast?_cons, hl]
      rfl

/-- The body of `Bus_CreatePdo` follows the order of the source. -/
theorem createPdoBody_runsInOrder (r : CREATE_RESULTS)
    (d : PDO_IDENTIFICATION_DESCRIPTION) :
    runsInOrder r (creationOrder d) (createPdoBody r d) := by
  obtain ⟨serial, family, owner, vendor, product⟩ := d
  cases family <;>
    · simp only [creationOrder, familyCreationOrder, createPdoBody, assignIdsAndCreate,
        exposeAndSetContexts, createQueues]
      repeat' first
        | exact runsInOrder_nil r _
        | apply runsInOrder_fallible r _ _ _ _ (by rfl)
        | apply runsInOrder_infallible r _ _ _ (by rfl)

/-- When the interface creation fails, the regions "Expose USB Interface" and
"Set PDO contexts" make that one call. -/
theorem exposeAndSetContexts_failure (r : CREATE_RESULTS)
    (d : PDO_IDENTIFICATION_DESCRIPTION)
    (h : NT_SUCCESS r.WdfDeviceCreateDeviceInterface = false) :
    exposeAndSetContexts r d =
      (r.WdfDeviceCreateDeviceInterface, [CREATE_CALL.WdfDeviceCreateDeviceInterface]) := by
  unfold exposeAndSetContexts fallible
  simp [h]

/-- When the interface creation fails, no call of the body belongs to the part
of the source after the interface creation. -/
theorem createPdoBody_expose_failure (r : CREATE_RESULTS)
    (d : PDO_IDENTIFICATION_DESCRIPTION)
    (h : NT_SUCCESS r.WdfDeviceCreateDeviceInterface = false) :
    ∀ c ∈ (createPdoBody r d).2, afterExpose c = false := by
  have hexpose : ∀ c ∈ (exposeAndSetContexts r d).2, afterExpose c = false := by
    rw [exposeAndSetContexts_failure r d h]
    intro c hc
    rcases List.mem_cons.mp hc with h1 | h1
    · rw [h1]
      rfl
    · cases h1
  have hassign : ∀ c ∈ (assignIdsAndCreate r d).2, afterExpose c = false := by
    unfold assignIdsAndCreate
    apply fallible_forall (fun c => afterExpose c = false) _ _ _ (by rfl)
    apply fallible_forall (fun c => afterExpose c = false) _ _ _ (by rfl)
    apply fallible_forall (fun c => afterExpose c = false) _ _ _ (by rfl)
    apply fallible_forall (fun c => afterExpose c = false) _ _ _ (by rfl)
    apply fallible_forall (fun c => afterExpose c = false) _ _ _ (by rfl)
    split
    all_goals first
      | exact hexpose
      | exact fallible_forall (fun c => afterExpose c = false) _ _ _ (by rfl) hexpose
  unfold createPdoBody
  apply fallible_forall (fun c => afterExpose c = false) _ _ _ (by rfl)
  apply fallible_forall (fun c => afterExpose c = false) _ _ _ (by rfl)
  split
  · exact fallible_forall (fun c => afterExpose c = false) _ _ _ (by rfl) hassign
  · exact fallible_forall (fun c => afterExpose c = false) _ _ _ (by rfl) hassign
  · exact fallible_forall (fun c => afterExpose c = false) _ _ _ (by rfl) hassign
  · intro c hc
    cases hc

/-- C13, as the code has it: between the interface query and the final report,
the calls of every run of `Bus_CreatePdo` are a prefix of the order of the
source (`creationOrder`: preparation, device id and instance id, device text,
device creation, family context allocation, USB device interface creation,
population of the context, family context call, data queue, notification
queue, default queue, capabilities); a call that returns a failure is the last
call of the body and its status is the status at the label, so no later step
runs; the body stops short of the full order only at such a call.  The
interface creation comes before the population of the context and before the
queues: when it fails, no context is populated and no queue is created. -/
theorem creation_steps_follow_source_order (r : CREATE_RESULTS)
    (Description : PDO_IDENTIFICATION_DESCRIPTION) :
    (createPdoBody r Description).2 <+: creationOrder Description ∧
    (∀ c ∈ (createPdoBody r Description).2, ∀ st,
      callStatus r c = some st → NT_SUCCESS st = false →
      (createPdoBody r Description).2.getLast? = some c ∧
        (createPdoBody r Description).1 = st) ∧
    ((createPdoBody r Description).2 = creationOrder Description ∨
      ∃ c st, (createPdoBody r Description).2.getLast? = some c ∧
        callStatus r c = some st ∧ NT_SUCCESS st = false) ∧
    (NT_SUCCESS r.WdfFdoQueryForInterface = true →
      (Bus_CreatePdo r Description).2 =
        CREATE_CALL.WdfFdoQueryForInterface :: (createPdoBody r Description).2 ++
          [CREATE_CALL.BUS_PDO_REPORT_STAGE_RESULT
            { Stage := VIGEM_PDO_STAGE.ViGEmPdoCreate
              SerialNo := Description.SerialNo
              Status := (createPdoBody r Description).1 }]) ∧
    (NT_SUCCESS r.WdfDeviceCreateDeviceInterface = false →
      ∀ c ∈ (Bus_CreatePdo r Description).2, afterExpose c = false) := by
  obtain ⟨hpre, hfail, hstop⟩ := createPdoBody_runsInOrder r Description
  refine ⟨hpre, hfail, hstop, ?_, ?_⟩
  · intro hq
    unfold Bus_CreatePdo
    rw [if_pos hq]
  · intro he c hc
    unfold Bus_CreatePdo at hc
    split at hc
    · simp only [List.cons_append, List.mem_cons, List.mem_append, List.mem_singleton,
        List.not_mem_nil, or_false] at hc
      rcases hc with h1 | h1 | h1
      · rw [h1]
        rfl
      · exact createPdoBody_expose_failure r Description he c h1
      · rw [h1]
        rfl
    · rcases List.mem_cons.mp hc with h1 | h1
      · rw [h1]
        rfl
      · cases h1

/-- Witness for C13 as amended: for an Xbox 360 device with serial 7, when the
interface creation fails it is the last call of the body and its status is the
status at the label. -/
theorem creation_steps_follow_source_order_witness :
    (createPdoBody sampleResultsExposeFails
        (sampleDescription 7 VIGEM_TARGET_TYPE.Xbox360Wired)).2.getLast? =
      some CREATE_CALL.WdfDeviceCreateDeviceInterface ∧
    (createPdoBody sampleResultsExposeFails
        (sampleDescription 7 VIGEM_TARGET_TYPE.Xbox360Wired)).1 = STATUS_UNSUCCESSFUL :=
  (creation_steps_follow_source_order sampleResultsExposeFails
    (sampleDescription 7 VIGEM_TARGET_TYPE.Xbox360Wired)).2.1
    CREATE_CALL.WdfDeviceCreateDeviceInterface (by decide) STATUS_UNSUCCESSFUL rfl
    (by decide)

/-- Counterexample to C13 as stated: for an Xbox 360 device with serial 7, the
run in which only the interface creation fails ends at that call, with no
queue created and no context populated; and the run in which every call
succeeds creates the interface before it populates the context and before it
creates the queues. -/
theorem expose_step_precedes_queues_and_context :
    Bus_CreatePdo sampleResultsExposeFails
        (sampleDescription 7 VIGEM_TARGET_TYPE.Xbox360Wired) =
      (STATUS_UNSUCCESSFUL,
        [CREATE_CALL.WdfFdoQueryForInterface,
          CREATE_CALL.WdfPdoInitAssignRawDevice,
          CREATE_CALL.WdfDeviceInitAssignSDDLString,
          CREATE_CALL.Xusb_PreparePdo 0x045E 0x028E,
          CREATE_CALL.WdfPdoInitAssignDeviceID,
          CREATE_CALL.RtlUnicodeStringPrintf 7,
          CREATE_CALL.WdfPdoInitAssignInstanceID "07",
          CREATE_CALL.WdfPdoInitAddDeviceText,
          CREATE_CALL.WdfDeviceCreate,
          CREATE_CALL.WdfObjectAllocateContext VIGEM_TARGET_TYPE.Xbox360Wired,
          CREATE_CALL.WdfDeviceCreateDeviceInterface,
          CREATE_CALL.BUS_PDO_REPORT_STAGE_RESULT
            { Stage := VIGEM_PDO_STAGE.ViGEmPdoCreate
              SerialNo := 7
              Status := STATUS_UNSUCCESSFUL }]) ∧
    Bus_CreatePdo (sampleResults STATUS_SUCCESS)
        (sampleDescription 7 VIGEM_TARGET_TYPE.Xbox360Wired) =
      (STATUS_SUCCESS,
        [CREATE_CALL.WdfFdoQueryForInterface,
          CREATE_CALL.WdfPdoInitAssignRawDevice,
          CREATE_CALL.WdfDeviceInitAssignSDDLString,
          CREATE_CALL.Xusb_PreparePdo 0x045E 0x028E,
          CREATE_CALL.WdfPdoInitAssignDeviceID,
          CREATE_CALL.RtlUnicodeStringPrintf 7,
          CREATE_CALL.WdfPdoInitAssignInstanceID "07",
          CREATE_CALL.WdfPdoInitAddDeviceText,
          CREATE_CALL.WdfDeviceCreate,
          CREATE_CALL.WdfObjectAllocateContext VIGEM_TARGET_TYPE.Xbox360Wired,
          CREATE_CALL.WdfDeviceCreateDeviceInterface,
          CREATE_CALL.SetPdoContext 7 VIGEM_TARGET_TYPE.Xbox360Wired 4242 0x045E 0x028E,
          CREATE_CALL.Xusb_AssignPdoContext,
          CREATE_CALL.WdfIoQueueCreate PDO_QUEUE.PendingUsbInRequests,
          CREATE_CALL.WdfIoQueueCreate PDO_QUEUE.PendingNotificationRequests,
          CREATE_CALL.WdfIoQueueCreate PDO_QUEUE.Default,
          CREATE_CALL.WdfDeviceSetPnpCapabilities 7 7,
          CREATE_CALL.WdfDeviceSetPowerCapabilities,
          CREATE_CALL.BUS_PDO_REPORT_STAGE_RESULT
            { Stage := VIGEM_PDO_STAGE.ViGEmPdoCreate
              SerialNo := 7
              Status := STATUS_SUCCESS }]) := by
  refine ⟨by decide, by decide⟩

/-! ## Theorems: the instance id is injective -/

/-- Every digit produced is below 10. -/
theorem decimalRev_lt (fuel : Nat) : ∀ n, ∀ d ∈ decimalRev fuel n, d < 10 := by
  induction fuel with
  | zero =>
    intro n d hd
    simp [decimalRev] at hd
  | succ f ih =>
    intro n d hd
    rw [decimalRev] at hd
    split at hd
    · rename_i hn
      simp only [List.mem_singleton] at hd
      omega
    · rcases List.mem_cons.mp hd with h | h
      · omega
      · exact ih _ d h

/-- With enough fuel the digits denote the number. -/
theorem digitsValueRev_decimalRev (fuel : Nat) :
    ∀ n, n < 10 ^ fuel → digitsValueRev (decimalRev fuel n) = n := by
  induction fuel with
  | zero =>
    intro n hn
    simp at hn
    subst hn
    rfl
  | succ f ih =>
    intro n hn
    rw [decimalRev]
    split
    · simp [digitsValueRev]
    · have hq : n / 10 < 10 ^ f := by
        rw [pow_succ] at hn
        omega
      simp only [digitsValueRev, ih _ hq]
      omega

/-- Reading the characters of a digit list back gives its value. -/
theorem decimalValue_digits (ds : List Nat) (h : ∀ d ∈ ds, d < 10) :
    decimalValue (ds.reverse.map Nat.digitChar) = digitsValueRev ds := by
  unfold decimalValue
  rw [List.foldl_map, List.foldl_reverse]
  induction ds with
  | nil => rfl
  | cons d ds ih =>
    have hd : d < 10 := h d (List.mem_cons_self _ _)
    have hds : ∀ x ∈ ds, x < 10 := fun x hx => h x (List.mem_cons_of_mem _ hx)
    simp only [List.foldr_cons, digitsValueRev, ih hds, digitChar_value d hd]
    omega

/-- Reading the decimal digits of a number back gives the number. -/
theorem decimalValue_decimalDigits (n : Nat) (h : n < 10 ^ 10) :
    decimalValue (decimalDigits n) = n := by
  unfold decimalDigits
  rw [decimalValue_digits _ (decimalRev_lt 10 n), digitsValueRev_decimalRev 10 n h]

/-- Leading zeros do not change the value. -/
theorem decimalValue_zeros (k : Nat) (cs : List Char) :
    decimalValue (List.replicate k '0' ++ cs) = decimalValue cs := by
  unfold decimalValue
  rw [List.foldl_append]
  congr 1
  induction k with
  | zero => rfl
  | succ k ih =>
    rw [List.replicate_succ, List.foldl_cons]
    exact ih

/-- The decimal digits of a number are digit characters. -/
theorem decimalDigits_isDigit (n : Nat) : ∀ c ∈ decimalDigits n, c.isDigit = true := by
  intro c hc
  unfold decimalDigits at hc
  obtain ⟨d, hd, rfl⟩ := List.mem_map.mp hc
  exact digitChar_isDigit d (decimalRev_lt 10 n d (List.mem_reverse.mp hd))

/-- The conversion of a non-negative value: digit characters whose value is the
argument. -/
theorem format_02d_nonnegative (s : Nat) (h31 : s < 2 ^ 31) :
    decimalValue (format_02d s) = s ∧ ∀ c ∈ format_02d s, c.isDigit = true := by
  have h32 : s % 2 ^ 32 = s := Nat.mod_eq_of_lt (by omega)
  unfold format_02d
  simp only [h32, h31, if_true]
  refine ⟨?_, ?_⟩
  · rw [decimalValue_zeros, decimalValue_decimalDigits s (by omega)]
  · intro c hc
    rcases List.mem_append.mp hc with h | h
    · rw [(List.mem_replicate.mp h).2]
      rfl
    · exact decimalDigits_isDigit s c h

/-- The conversion of a value with the top bit set: a minus sign, then digit
characters whose value is the magnitude. -/
theorem format_02d_negative (s : Nat) (h31 : 2 ^ 31 ≤ s) (h32 : s < 2 ^ 32) :
    ∃ cs, format_02d s = '-' :: cs ∧ decimalValue cs = 2 ^ 32 - s := by
  have hm : s % 2 ^ 32 = s := Nat.mod_eq_of_lt h32
  have hn : ¬ s < 2 ^ 31 := by omega
  unfold format_02d
  simp only [hm, hn, if_false]
  refine ⟨_, rfl, ?_⟩
  rw [decimalValue_zeros, decimalValue_decimalDigits _ (by omega)]

/-- The conversion `%02d` is injective on 32-bit arguments. -/
theorem format_02d_injective (s1 s2 : Nat) (h1 : s1 < 2 ^ 32) (h2 : s2 < 2 ^ 32)
    (h : format_02d s1 = format_02d s2) : s1 = s2 := by
  by_cases p1 : s1 < 2 ^ 31
  · obtain ⟨v1, d1⟩ := format_02d_nonnegative s1 p1
    by_cases p2 : s2 < 2 ^ 31
    · obtain ⟨v2, _⟩ := format_02d_nonnegative s2 p2
      rw [h] at v1
      omega
    · obtain ⟨cs, hcs, _⟩ := format_02d_negative s2 (by omega) h2
      have hmem : '-' ∈ format_02d s1 := by
        rw [h, hcs]
        exact List.mem_cons_self _ _
      exact absurd (d1 '-' hmem) (by decide)
  · obtain ⟨cs1, hcs1, v1⟩ := format_02d_negative s1 (by omega) h1
    by_cases p2 : s2 < 2 ^ 31
    · obtain ⟨_, d2⟩ := format_02d_nonnegative s2 p2
      have hmem : '-' ∈ format_02d s2 := by
        rw [← h, hcs1]
        exact List.mem_cons_self _ _
      exact absurd (d2 '-' hmem) (by decide)
    · obtain ⟨cs2, hcs2, v2⟩ := format_02d_negative s2 (by omega) h2
      rw [hcs1, hcs2] at h
      have hcs : cs1 = cs2 := (List.cons.inj h).2
      rw [hcs] at v1
      omega

/-- C14: the instance id formatting of `Bus_CreatePdo` is injective on 32-bit
serial numbers: two different serial numbers, whatever their size and top bit,
give two different instance id strings; so two identity descriptions that
`Bus_EvtChildListIdentificationDescriptionCompare` tells apart never get the
same instance id, in whatever runs of `Bus_CreatePdo` the ids are assigned. -/
theorem instance_id_injective (s1 s2 : Nat) (h1 : s1 < 2 ^ 32) (h2 : s2 < 2 ^ 32)
    (hne : s1 ≠ s2) :
    instanceId s1 ≠ instanceId s2 ∧
    (∀ lhs rhs : PDO_IDENTIFICATION_DESCRIPTION,
      lhs.SerialNo = s1 → rhs.SerialNo = s2 →
      Bus_EvtChildListIdentificationDescriptionCompare lhs rhs = false ∧
        instanceId lhs.SerialNo ≠ instanceId rhs.SerialNo) ∧
    (∀ (r1 r2 : CREATE_RESULTS) (lhs rhs : PDO_IDENTIFICATION_DESCRIPTION)
      (buffer1 buffer2 : String),
      lhs.SerialNo = s1 → rhs.SerialNo = s2 →
      CREATE_CALL.WdfPdoInitAssignInstanceID buffer1 ∈ (Bus_CreatePdo r1 lhs).2 →
      CREATE_CALL.WdfPdoInitAssignInstanceID buffer2 ∈ (Bus_CreatePdo r2 rhs).2 →
      buffer1 ≠ buffer2) := by
  have hinj : instanceId s1 ≠ instanceId s2 := by
    intro h
    have hdata : format_02d s1 = format_02d s2 := congrArg String.data h
    exact hne (format_02d_injective s1 s2 h1 h2 hdata)
  refine ⟨hinj, ?_, ?_⟩
  · intro lhs rhs hl hr
    refine ⟨?_, by rw [hl, hr]; exact hinj⟩
    simp [Bus_EvtChildListIdentificationDescriptionCompare, hl, hr, hne]
  · intro r1 r2 lhs rhs buffer1 buffer2 hl hr hb1 hb2
    rw [Bus_CreatePdo_instance_id r1 lhs buffer1 hb1,
      Bus_CreatePdo_instance_id r2 rhs buffer2 hb2, hl, hr]
    exact hinj

/-- Witness for C14: serial 100 and serial 4294967295 (top bit set) get
different instance ids. -/
theorem instance_id_injective_witness :
    instanceId 100 ≠ instanceId 4294967295 :=
  (instance_id_injective 100 4294967295 (by decide) (by decide) (by decide)).1

end ViGEmBus
